import Mathlib

/-!
# Tactical message wizard (`TacticalMessageModule`)

A shallow embedding of `src/modules/TacticalMessageModule.{h,cpp}`: the stage
machine of the three-step selection wizard, its periodic tick, the feedback
overlay and the send operation, followed by theorems about them.

Conventions of the embedding

* A `char[N]` buffer is represented by the C string it holds.  Every buffer of
  the module is zero-initialised and only written by `memset(.., 0, ..)`,
  by `strncpy` with a count of `N - 1`, or by `snprintf` with size `N`, so its
  last byte is always NUL and the C string is well defined.
* `int` fields are `Int`.  The cursor arithmetic of `advanceItem` and `retreatItem` is 32-bit:
  every sum is reduced to the range of `int` by `wrapInt32` (two's complement, which is what
  the target compilers produce on overflow); the `%` of C is `Int.tmod` (truncating).
* `millis()` is a parameter `now`: one clock reading per operation (the
  handler is synchronous).  Time stamps are 32-bit unsigned values, arithmetic
  on them is taken modulo `2 ^ 32`.
* An out-of-bounds read of a reference list (undefined behaviour in C) makes
  the handler return `none`.
* Calls into collaborators (observer broadcast, focus request, scheduler,
  transport) are recorded as a list of `Effect`s returned next to the state.
-/

namespace TacticalMessage

/-! ## Constants -/

/-- Stages of the tactical message builder (`enum TacticalMessageStage`). -/
inductive TacticalMessageStage where
  | TACTICAL_MESSAGE_STAGE_DISABLED
  | TACTICAL_MESSAGE_STAGE_INACTIVE
  | TACTICAL_MESSAGE_STAGE_CONTACT
  | TACTICAL_MESSAGE_STAGE_DISTANCE
  | TACTICAL_MESSAGE_STAGE_ORDER
  | TACTICAL_MESSAGE_STAGE_SENDING
  | TACTICAL_MESSAGE_STAGE_FEEDBACK
  deriving DecidableEq, Repr

open TacticalMessageStage

def TACTICAL_CONTACTS_COUNT : Int := 9
def TACTICAL_DISTANCES_COUNT : Int := 9
def TACTICAL_ORDERS_COUNT : Int := 9

/-- Maximum length for a part of the message + null terminator. -/
def MAX_PART_LEN : Nat := 10

/-- Size of the buffer of the final constructed message. -/
def MAX_TACTICAL_MESSAGE_LEN : Nat := MAX_PART_LEN * 3

def TACTICAL_INACTIVATE_AFTER_MS : Nat := 30000
def TACTICAL_FEEDBACK_DURATION_MS : Nat := 2000

def INT32_MAX : Int := 2147483647

/-- Number of values of the 32-bit millisecond clock. -/
def U32 : Nat := 4294967296

/-- The reference list `contacts`. -/
def contacts : List String :=
  ["Inf", "Vec", "Obj", "FS", "LP/OP", "Comm", "FOB", "Friend", "Unkn"]

/-- The reference list `distances`. -/
def distances : List String :=
  ["<25m", "25m", "50m", "100m", "150m", "200m", "300m", "400m", "500m"]

/-- The reference list `orders`. -/
def orders : List String :=
  ["ENGAGE", "Observe", "Retreat", "Follow", "Mark", "Regroup", "Dig-in", "Spread out", "Hold"]

/-! ## Input events -/

/-- An `InputEvent`: the event character and the name of its source. -/
structure InputEvent where
  inputEvent : Nat
  source : String
  deriving DecidableEq, Repr

/-- Modelled from the spec: the event kinds `Up`, `Down`, `Select`, `Cancel`, `Back` are the
constants `meshtastic_ModuleConfig_CannedMessageConfig_InputEventChar_*` of a generated header
that is not part of the sources at hand; the values are those of the protobuf definition, and only
their being pairwise different is used. -/
def InputEventChar_UP : Nat := 17

/-- Modelled from the spec: event kind `Down` (see `InputEventChar_UP`). -/
def InputEventChar_DOWN : Nat := 18

/-- Modelled from the spec: event kind `Select` (see `InputEventChar_UP`). -/
def InputEventChar_SELECT : Nat := 10

/-- Modelled from the spec: event kind `Cancel` (see `InputEventChar_UP`). -/
def InputEventChar_CANCEL : Nat := 24

/-- Modelled from the spec: event kind `Back` (see `InputEventChar_UP`). -/
def InputEventChar_BACK : Nat := 27

/-! ## C library helpers -/

/-- The C string left in a zero-terminated buffer of `n + 1` bytes by `strncpy(dst, src, n)`:
the first `n` characters of `src`. -/
def strncpy (src : String) (n : Nat) : String :=
  String.mk (src.data.take n)

/-- The C string written by `snprintf(dst, size, "%s %s %s", a, b, c)`: the formatted text cut to
`size - 1` characters. -/
def snprintf3 (size : Nat) (a b c : String) : String :=
  String.mk ((a ++ " " ++ b ++ " " ++ c).data.take (size - 1))

/-- Element `i` of a C array of strings; `none` when `i` is outside the array. -/
def arrayAt (xs : List String) (i : Int) : Option String :=
  if 0 ≤ i then xs.get? i.toNat else none

/-- The value of a 32-bit `int` after an arithmetic operation whose exact result is `x`: `x`
itself when it lies in `[-2 ^ 31, 2 ^ 31)`, else `x` wrapped around in two's complement. -/
def wrapInt32 (x : Int) : Int :=
  (x + 2147483648) % 4294967296 - 2147483648

/-- Unsigned 32-bit subtraction `a - b`. -/
def subU32 (a b : Nat) : Nat :=
  (a % U32 + (U32 - b % U32)) % U32

/-- Unsigned 32-bit addition `a + b`. -/
def addU32 (a b : Nat) : Nat :=
  (a + b) % U32

/-- Modelled from the spec: `Throttle::isWithinTimespanMs(lastExecutionMs, timeSpanMs)` comes
from `Throttle.h`, which is not part of the sources at hand.  It reads the clock (`now`) and tells
whether the time elapsed since `lastExecutionMs`, in unsigned 32-bit arithmetic, is below
`timeSpanMs`: idle time at or above the threshold is no longer within the time span. -/
def isWithinTimespanMs (now lastExecutionMs timeSpanMs : Nat) : Bool :=
  decide (subU32 now lastExecutionMs < timeSpanMs)

/-! ## State -/

/-- The mutable fields of `class TacticalMessageModule`. -/
structure TacticalMessageModule where
  currentStage : TacticalMessageStage
  selectedContactIndex : Int
  selectedDistanceIndex : Int
  selectedOrderIndex : Int
  currentListItemIndex : Int
  selectedContact : String
  selectedDistance : String
  selectedOrder : String
  constructedMessage : String
  temporaryFeedbackMessage : String
  feedbackIsError : Bool
  feedbackEndTime : Nat
  lastInteractionTime : Nat
  deriving DecidableEq, Repr

/-- Calls into the collaborators of the module, in the order they are made. -/
inductive Effect where
  | requestFocus
  | notifyObservers
  | setIntervalFromNow (ms : Nat)
  | sendToMesh (payload : String)
  | tick (delay : Int)
  deriving DecidableEq, Repr

/-- The in-class member initialisers of the header. -/
def memberDefaults : TacticalMessageModule where
  currentStage := TACTICAL_MESSAGE_STAGE_INACTIVE
  selectedContactIndex := -1
  selectedDistanceIndex := -1
  selectedOrderIndex := -1
  currentListItemIndex := 0
  selectedContact := ""
  selectedDistance := ""
  selectedOrder := ""
  constructedMessage := ""
  temporaryFeedbackMessage := ""
  feedbackIsError := false
  feedbackEndTime := 0
  lastInteractionTime := 0

/-! ## Operations -/

/-- Embedding of `TacticalMessageModule::resetSelections`. -/
def resetSelections (m : TacticalMessageModule) (now : Nat) : TacticalMessageModule :=
  { m with
    selectedContactIndex := -1
    selectedDistanceIndex := -1
    selectedOrderIndex := -1
    currentListItemIndex := 0
    currentStage := TACTICAL_MESSAGE_STAGE_INACTIVE
    selectedContact := ""
    selectedDistance := ""
    selectedOrder := ""
    constructedMessage := ""
    lastInteractionTime := now }

/-- Embedding of `TacticalMessageModule::commonInit`. -/
def commonInit (m : TacticalMessageModule) (now : Nat) : TacticalMessageModule :=
  resetSelections m now

/-- Embedding of `TacticalMessageModule::isEnabledViaConfig`, from the two flags of `moduleConfig`. -/
def isEnabledViaConfig (has_tactical_message enabled : Bool) : Bool :=
  if has_tactical_message then enabled else false

/-- The constructor `TacticalMessageModule::TacticalMessageModule`. -/
def construct (has_tactical_message enabled : Bool) (now : Nat) : TacticalMessageModule :=
  let m := commonInit memberDefaults now
  if isEnabledViaConfig has_tactical_message enabled then m
  else { m with currentStage := TACTICAL_MESSAGE_STAGE_DISABLED }

/-- Embedding of `TacticalMessageModule::getCurrentList`. -/
def getCurrentList (m : TacticalMessageModule) : Option (List String) :=
  match m.currentStage with
  | TACTICAL_MESSAGE_STAGE_CONTACT => some contacts
  | TACTICAL_MESSAGE_STAGE_DISTANCE => some distances
  | TACTICAL_MESSAGE_STAGE_ORDER => some orders
  | _ => none

/-- Embedding of `TacticalMessageModule::getCurrentListSize`. -/
def getCurrentListSize (m : TacticalMessageModule) : Int :=
  match m.currentStage with
  | TACTICAL_MESSAGE_STAGE_CONTACT => TACTICAL_CONTACTS_COUNT
  | TACTICAL_MESSAGE_STAGE_DISTANCE => TACTICAL_DISTANCES_COUNT
  | TACTICAL_MESSAGE_STAGE_ORDER => TACTICAL_ORDERS_COUNT
  | _ => 0

/-- Embedding of `TacticalMessageModule::nextStage`. -/
def nextStage (m : TacticalMessageModule) (now : Nat) : TacticalMessageModule :=
  let m1 := { m with currentListItemIndex := 0 }
  let m2 :=
    if m1.currentStage = TACTICAL_MESSAGE_STAGE_CONTACT then
      { m1 with currentStage := TACTICAL_MESSAGE_STAGE_DISTANCE }
    else if m1.currentStage = TACTICAL_MESSAGE_STAGE_DISTANCE then
      { m1 with currentStage := TACTICAL_MESSAGE_STAGE_ORDER }
    else m1
  { m2 with lastInteractionTime := now }

/-- Embedding of `TacticalMessageModule::previousStage`. -/
def previousStage (m : TacticalMessageModule) (now : Nat) : TacticalMessageModule :=
  let m1 := { m with currentListItemIndex := 0 }
  let m2 :=
    if m1.currentStage = TACTICAL_MESSAGE_STAGE_ORDER then
      { m1 with
        selectedOrderIndex := -1
        selectedOrder := ""
        currentStage := TACTICAL_MESSAGE_STAGE_DISTANCE }
    else if m1.currentStage = TACTICAL_MESSAGE_STAGE_DISTANCE then
      { m1 with
        selectedDistanceIndex := -1
        selectedDistance := ""
        currentStage := TACTICAL_MESSAGE_STAGE_CONTACT }
    else m1
  { m2 with lastInteractionTime := now }

/-- Embedding of `TacticalMessageModule::advanceItem`. -/
def advanceItem (m : TacticalMessageModule) (listMax : Int) (now : Nat) : TacticalMessageModule :=
  if listMax = 0 then m
  else
    { m with
      currentListItemIndex := Int.tmod (wrapInt32 (m.currentListItemIndex + 1)) listMax
      lastInteractionTime := now }

/-- Embedding of `TacticalMessageModule::retreatItem`. -/
def retreatItem (m : TacticalMessageModule) (listMax : Int) (now : Nat) : TacticalMessageModule :=
  if listMax = 0 then m
  else
    { m with
      currentListItemIndex :=
        Int.tmod (wrapInt32 (wrapInt32 (m.currentListItemIndex - 1) + listMax)) listMax
      lastInteractionTime := now }

/-- Embedding of `TacticalMessageModule::showTemporaryFeedback`. -/
def showTemporaryFeedback (m : TacticalMessageModule) (message : String) (isError : Bool)
    (now : Nat) : TacticalMessageModule × List Effect :=
  ({ m with
     temporaryFeedbackMessage := message
     feedbackIsError := isError
     feedbackEndTime := addU32 now TACTICAL_FEEDBACK_DURATION_MS
     currentStage := TACTICAL_MESSAGE_STAGE_FEEDBACK },
   [Effect.notifyObservers, Effect.setIntervalFromNow 100])

/-- Embedding of `TacticalMessageModule::sendConstructedMessage`; `allocOk` tells whether `allocDataPacket`
returned a packet. -/
def sendConstructedMessage (m : TacticalMessageModule) (now : Nat) (allocOk : Bool) :
    TacticalMessageModule × List Effect :=
  if m.constructedMessage.length = 0 then
    let r := showTemporaryFeedback m "Error: Empty Msg" true now
    ({ r.1 with currentStage := TACTICAL_MESSAGE_STAGE_ORDER }, r.2)
  else if allocOk = false then
    let r := showTemporaryFeedback m "Error: No Packet" true now
    ({ r.1 with currentStage := TACTICAL_MESSAGE_STAGE_ORDER }, r.2)
  else
    let r := showTemporaryFeedback m "Sent!" false now
    let m1 := resetSelections r.1 now
    ({ m1 with currentStage := TACTICAL_MESSAGE_STAGE_INACTIVE },
     Effect.sendToMesh m.constructedMessage :: r.2 ++ [Effect.notifyObservers])

/-- Embedding of `TacticalMessageModule::runOnce`: the new state, the requested delay and the effects. -/
def runOnce (m : TacticalMessageModule) (now : Nat) : TacticalMessageModule × Int × List Effect :=
  if m.currentStage = TACTICAL_MESSAGE_STAGE_DISABLED then (m, INT32_MAX, [])
  else if m.currentStage = TACTICAL_MESSAGE_STAGE_FEEDBACK then
    if now > m.feedbackEndTime then
      let m1 := { m with temporaryFeedbackMessage := "", feedbackIsError := false }
      let m2 :=
        if m1.currentStage ≠ TACTICAL_MESSAGE_STAGE_SENDING then
          { m1 with currentStage := TACTICAL_MESSAGE_STAGE_INACTIVE }
        else m1
      (m2, 100, [Effect.notifyObservers])
    else (m, 100, [])
  else if (m.currentStage = TACTICAL_MESSAGE_STAGE_CONTACT ∨
      m.currentStage = TACTICAL_MESSAGE_STAGE_DISTANCE ∨
      m.currentStage = TACTICAL_MESSAGE_STAGE_ORDER) ∧
      isWithinTimespanMs now m.lastInteractionTime TACTICAL_INACTIVATE_AFTER_MS = false then
    ({ resetSelections m now with currentStage := TACTICAL_MESSAGE_STAGE_INACTIVE },
     INT32_MAX, [Effect.notifyObservers])
  else if m.currentStage = TACTICAL_MESSAGE_STAGE_SENDING then
    if m.temporaryFeedbackMessage.length = 0 then
      ({ m with currentStage := TACTICAL_MESSAGE_STAGE_INACTIVE }, 200, [Effect.notifyObservers])
    else (m, 200, [])
  else (m, TACTICAL_INACTIVATE_AFTER_MS / 2, [])

/-- The forced `runOnce()` at the end of a handled event, preceded by the focus request and the
redraw notification. -/
def refreshAndTick (m : TacticalMessageModule) (now : Nat) (before : List Effect) :
    TacticalMessageModule × List Effect :=
  let r := runOnce m now
  (r.1, before ++ [Effect.requestFocus, Effect.notifyObservers] ++ r.2.2 ++ [Effect.tick r.2.1])

/-- The state in which `sendConstructedMessage` is called: the `SELECT` branch of
`handleInputEvent` in stage `ORDER`, up to and including `currentStage = SENDING`. -/
def commitOrder (m : TacticalMessageModule) : Option TacticalMessageModule :=
  match arrayAt orders m.currentListItemIndex with
  | none => none
  | some src =>
    let m1 := { m with
      selectedOrderIndex := m.currentListItemIndex
      selectedOrder := strncpy src (MAX_PART_LEN - 1) }
    some { m1 with
      constructedMessage :=
        snprintf3 MAX_TACTICAL_MESSAGE_LEN m1.selectedContact m1.selectedDistance m1.selectedOrder
      currentStage := TACTICAL_MESSAGE_STAGE_SENDING }

/-- The `SELECT` branch of `handleInputEvent`. -/
def handleSelect (m : TacticalMessageModule) (now : Nat) (allocOk : Bool) :
    Option (TacticalMessageModule × List Effect) :=
  if m.currentStage = TACTICAL_MESSAGE_STAGE_CONTACT then
    match arrayAt contacts m.currentListItemIndex with
    | none => none
    | some src =>
      some (nextStage { m with
        selectedContactIndex := m.currentListItemIndex
        selectedContact := strncpy src (MAX_PART_LEN - 1) } now, [])
  else if m.currentStage = TACTICAL_MESSAGE_STAGE_DISTANCE then
    match arrayAt distances m.currentListItemIndex with
    | none => none
    | some src =>
      some (nextStage { m with
        selectedDistanceIndex := m.currentListItemIndex
        selectedDistance := strncpy src (MAX_PART_LEN - 1) } now, [])
  else if m.currentStage = TACTICAL_MESSAGE_STAGE_ORDER then
    match commitOrder m with
    | none => none
    | some m1 => some (sendConstructedMessage m1 now allocOk)
  else some (m, [])

/-- The `CANCEL`/`BACK` branch of `handleInputEvent`. -/
def handleCancel (m : TacticalMessageModule) (now : Nat) : TacticalMessageModule :=
  if m.currentStage = TACTICAL_MESSAGE_STAGE_CONTACT then
    resetSelections { m with currentStage := TACTICAL_MESSAGE_STAGE_INACTIVE } now
  else previousStage m now

/-- Embedding of `TacticalMessageModule::handleInputEvent` (its return value is always 0); `none` stands for
an out-of-bounds read of a reference list. -/
def handleInputEvent (m : TacticalMessageModule) (event : InputEvent) (now : Nat)
    (allocOk : Bool) : Option (TacticalMessageModule × List Effect) :=
  if m.currentStage = TACTICAL_MESSAGE_STAGE_DISABLED ∨
      m.currentStage = TACTICAL_MESSAGE_STAGE_SENDING then
    some (m, [])
  else if m.currentStage = TACTICAL_MESSAGE_STAGE_INACTIVE ∧
      event.inputEvent = InputEventChar_SELECT ∧ event.source = "button" then
    let m1 := { m with
      currentStage := TACTICAL_MESSAGE_STAGE_CONTACT
      currentListItemIndex := 0
      selectedContactIndex := -1
      selectedDistanceIndex := -1
      selectedOrderIndex := -1
      lastInteractionTime := now }
    some (refreshAndTick m1 now [])
  else if m.currentStage = TACTICAL_MESSAGE_STAGE_INACTIVE then
    some (m, [])
  else
    let m1 := { m with lastInteractionTime := now }
    if event.inputEvent = InputEventChar_UP then
      some (refreshAndTick (retreatItem m1 (getCurrentListSize m1) now) now [])
    else if event.inputEvent = InputEventChar_DOWN then
      some (refreshAndTick (advanceItem m1 (getCurrentListSize m1) now) now [])
    else if event.inputEvent = InputEventChar_SELECT then
      match handleSelect m1 now allocOk with
      | none => none
      | some r => some (refreshAndTick r.1 now r.2)
    else if event.inputEvent = InputEventChar_CANCEL ∨
        event.inputEvent = InputEventChar_BACK then
      some (refreshAndTick (handleCancel m1 now) now [])
    else some (m1, [])

/-! ## Runs -/

/-- One operation on the wizard: an input event (with the clock reading and the outcome of the
packet allocation, should a send be attempted), a scheduler tick, or a call of
`showTemporaryFeedback` by another subsystem. -/
inductive Op where
  | input (event : InputEvent) (now : Nat) (allocOk : Bool)
  | tick (now : Nat)
  | feedback (message : String) (isError : Bool) (now : Nat)
  deriving DecidableEq, Repr

/-- The effect of one operation. -/
def step (m : TacticalMessageModule) : Op → Option (TacticalMessageModule × List Effect)
  | Op.input event now allocOk => handleInputEvent m event now allocOk
  | Op.tick now => some ((runOnce m now).1, (runOnce m now).2.2)
  | Op.feedback message isError now => some (showTemporaryFeedback m message isError now)

/-- A sequence of operations, the effects collected in order. -/
def run (m : TacticalMessageModule) : List Op → Option (TacticalMessageModule × List Effect)
  | [] => some (m, [])
  | op :: ops =>
    match step m op with
    | none => none
    | some r =>
      match run r.1 ops with
      | none => none
      | some r2 => some (r2.1, r.2 ++ r2.2)

/-- States reachable from construction by input events, ticks and feedback calls. -/
inductive Reachable : TacticalMessageModule → Prop
  | construct (has_tactical_message enabled : Bool) (now : Nat) :
      Reachable (construct has_tactical_message enabled now)
  | step (m : TacticalMessageModule) (op : Op) (r : TacticalMessageModule × List Effect) :
      Reachable m → step m op = some r → Reachable r.1

/-- The payloads handed to the transport among a list of effects. -/
def sentPayloads : List Effect → List String
  | [] => []
  | Effect.sendToMesh payload :: es => payload :: sentPayloads es
  | _ :: es => sentPayloads es

/-- A `Select` press of the hardware button. -/
def selectEvent : InputEvent := { inputEvent := InputEventChar_SELECT, source := "button" }

/-- A `Down` press. -/
def downEvent : InputEvent := { inputEvent := InputEventChar_DOWN, source := "button" }

/-- Moving the cursor from 0 to `i` and pressing `Select`. -/
def pick (i now : Nat) (allocOk : Bool) : List Op :=
  List.replicate i (Op.input downEvent now true) ++ [Op.input selectEvent now allocOk]

/-- The three picks of a complete message. -/
def wizardScript (i j k now : Nat) (allocOk : Bool) : List Op :=
  pick i now true ++ pick j now true ++ pick k now allocOk

/-- A freshly activated wizard: constructed enabled, then `Select` on the inactive screen. -/
def activated (now : Nat) : Option (TacticalMessageModule × List Effect) :=
  step (construct true true now) (Op.input selectEvent now true)

/-- The three tokens of the reference lists joined by single spaces. -/
def verbatimMessage (i j k : Nat) : Option String :=
  match contacts.get? i, distances.get? j, orders.get? k with
  | some c, some d, some o => some (c ++ " " ++ d ++ " " ++ o)
  | _, _, _ => none

/-- The payloads sent by a freshly activated wizard that is driven through `wizardScript`. -/
def scriptPayloads (i j k now : Nat) (allocOk : Bool) : Option (List String) :=
  match activated now with
  | none => none
  | some a =>
    match run a.1 (wizardScript i j k now allocOk) with
    | none => none
    | some r => some (sentPayloads r.2)


/-- Embedding of `TacticalMessageModule::interceptingKeyboardInput`: the stage is one of the
three selection stages. -/
def interceptingKeyboardInput (m : TacticalMessageModule) : Bool :=
  decide (m.currentStage = TACTICAL_MESSAGE_STAGE_CONTACT) ||
  decide (m.currentStage = TACTICAL_MESSAGE_STAGE_DISTANCE) ||
  decide (m.currentStage = TACTICAL_MESSAGE_STAGE_ORDER)

/-! ## Invariant of the reachable states -/

/-- A slot that holds a selection: the index is inside the reference list and the string is the
entry at that index, cut to the slot width. -/
def SlotFilled (list : List String) (index : Int) (text : String) : Prop :=
  0 ≤ index ∧ index < 9 ∧
    ∃ src, arrayAt list index = some src ∧ text = strncpy src (MAX_PART_LEN - 1)

/-- What holds in every reachable state: in a selection stage the cursor is inside the list, and
the slots of the stages already passed are filled. -/
def WizardInv (m : TacticalMessageModule) : Prop :=
  (interceptingKeyboardInput m = true →
    0 ≤ m.currentListItemIndex ∧ m.currentListItemIndex < 9) ∧
  (m.currentStage = TACTICAL_MESSAGE_STAGE_DISTANCE ∨
      m.currentStage = TACTICAL_MESSAGE_STAGE_ORDER →
    SlotFilled contacts m.selectedContactIndex m.selectedContact) ∧
  (m.currentStage = TACTICAL_MESSAGE_STAGE_ORDER →
    SlotFilled distances m.selectedDistanceIndex m.selectedDistance)

/-! ## Sample states -/

/-- A wizard in stage `CONTACT` with the cursor on `LP/OP`. -/
def sampleContactStage : TacticalMessageModule :=
  { memberDefaults with
    currentStage := TACTICAL_MESSAGE_STAGE_CONTACT
    currentListItemIndex := 4 }

/-- A wizard in stage `ORDER` with contact and distance chosen and the cursor on `Retreat`;
last input at 1000 ms. -/
def sampleOrderStage : TacticalMessageModule :=
  { memberDefaults with
    currentStage := TACTICAL_MESSAGE_STAGE_ORDER
    selectedContactIndex := 4
    selectedContact := "LP/OP"
    selectedDistanceIndex := 2
    selectedDistance := "50m"
    currentListItemIndex := 2
    lastInteractionTime := 1000 }

/-- The state after `Select` on the inactive screen of a wizard constructed enabled at 0 ms. -/
def sampleActivated : TacticalMessageModule :=
  { memberDefaults with currentStage := TACTICAL_MESSAGE_STAGE_CONTACT }

/-- The state reached from a new wizard by activation and two further `Select` presses. -/
def sampleReachedOrder : TacticalMessageModule :=
  { memberDefaults with
    currentStage := TACTICAL_MESSAGE_STAGE_ORDER
    selectedContactIndex := 0
    selectedContact := "Inf"
    selectedDistanceIndex := 0
    selectedDistance := "<25m" }

/-- A new wizard that is activated, picks the first contact, is interrupted by a feedback overlay
injected from outside, and is ticked after that overlay expired. -/
def staleOps : List Op :=
  [Op.input selectEvent 0 true, Op.input selectEvent 0 true,
   Op.feedback "Low battery" false 0, Op.tick 2001]

/-- The summary of a slot-relevant state: stage, cursor, the three indexes, the three strings. -/
def selectionOf (m : TacticalMessageModule) :
    TacticalMessageStage × Int × (Int × Int × Int) × (String × String × String) :=
  (m.currentStage, m.currentListItemIndex,
    (m.selectedContactIndex, m.selectedDistanceIndex, m.selectedOrderIndex),
    (m.selectedContact, m.selectedDistance, m.selectedOrder))

/-- The overlay part of a state: stage, overlay text, error flag and expiry time. -/
def overlayOf (m : TacticalMessageModule) : TacticalMessageStage × String × Bool × Nat :=
  (m.currentStage, m.temporaryFeedbackMessage, m.feedbackIsError, m.feedbackEndTime)

/-- Embedding of `TacticalMessageModule::shouldDraw`. -/
def shouldDraw (m : TacticalMessageModule) : Bool :=
  if m.currentStage = TACTICAL_MESSAGE_STAGE_DISABLED then false
  else if m.temporaryFeedbackMessage.length > 0 then true
  else true

/-- A slot is either unselected or filled from its reference list. -/
def SlotUnselectedOrFilled (list : List String) (index : Int) (text : String) : Prop :=
  index = -1 ∨ SlotFilled list index text

/-- In every reachable state a selected index comes with the matching string. -/
def SlotsInv (m : TacticalMessageModule) : Prop :=
  SlotUnselectedOrFilled contacts m.selectedContactIndex m.selectedContact ∧
  SlotUnselectedOrFilled distances m.selectedDistanceIndex m.selectedDistance ∧
  SlotUnselectedOrFilled orders m.selectedOrderIndex m.selectedOrder

/-- A wizard showing a feedback overlay that expires at 5000 ms, two slots still filled. -/
def sampleFeedbackStage : TacticalMessageModule :=
  { sampleOrderStage with
    currentStage := TACTICAL_MESSAGE_STAGE_FEEDBACK
    temporaryFeedbackMessage := "Low battery"
    feedbackIsError := true
    feedbackEndTime := 5000 }

/-- A `Left` key press: an event that is none of `Up`, `Down`, `Select`, `Cancel`, `Back`. -/
def leftEvent : InputEvent := { inputEvent := 19, source := "kb" }

/-- A new wizard with a complete message sent at 0 ms. -/
def sentOps : List Op :=
  Op.input selectEvent 0 true :: wizardScript 0 0 0 0 true

/-- A new wizard whose confirm at 0 ms fails to allocate a packet. -/
def failedSendOps : List Op :=
  Op.input selectEvent 0 true :: wizardScript 0 0 0 0 false

/-! ## The list window of `drawFrame` -/

/-- The number of header lines in `drawFrame` (`headerLines`). -/
def headerLines : Int := 1

/-- The computation of `maxItemsOnScreen` in `drawFrame`, from the display height, the vertical
offset `y` and the font height `FONT_HEIGHT_SMALL` (a constant of the graphics headers, taken
as a parameter); the division of C truncates. -/
def maxItemsOnScreen (displayHeight y FONT_HEIGHT_SMALL : Int) : Int :=
  max 1 (Int.tdiv (displayHeight - (y + FONT_HEIGHT_SMALL * headerLines))
    (FONT_HEIGHT_SMALL + 2))

/-- The first list index shown by `drawFrame` (`startIdx`). -/
def startIdx (currentListItemIndex maxItems : Int) : Int :=
  if currentListItemIndex ≥ maxItems then currentListItemIndex - maxItems + 1 else 0

/-- The loop `for (int i = 0; i < maxItemsOnScreen && (startIdx + i) < listSize; ++i)` of
`drawFrame`, from the loop counter `i` on: the values of `actualIndex` whose list entry is
drawn.  `fuel` bounds the number of iterations. -/
def drawLoop (start maxItems listSize : Int) : Nat → Int → List Int
  | 0, _ => []
  | fuel + 1, i =>
    if i < maxItems ∧ start + i < listSize then
      (start + i) :: drawLoop start maxItems listSize fuel (i + 1)
    else []

/-- The list indexes drawn by `drawFrame`; the loop makes at most `maxItems` iterations. -/
def drawnIndexes (currentListItemIndex maxItems listSize : Int) : List Int :=
  drawLoop (startIdx currentListItemIndex maxItems) maxItems listSize maxItems.toNat 0

/-- A wizard whose cursor is the last but one entry of a list of `INT32_MAX` entries. -/
def sampleHugeCursor : TacticalMessageModule :=
  { memberDefaults with
    currentStage := TACTICAL_MESSAGE_STAGE_CONTACT
    currentListItemIndex := 2147483646 }

/-- A `Cancel` event. -/
def cancelEvent : InputEvent := { inputEvent := InputEventChar_CANCEL, source := "button" }


/-! ## Basic facts -/

theorem subU32_self (a : Nat) : subU32 a a = 0 := by
  unfold subU32 U32
  have h : a % 4294967296 < 4294967296 := Nat.mod_lt _ (by decide)
  omega

/-- Inside the range of `int` no wrap-around happens. -/
theorem wrapInt32_of_range (x : Int) (hlo : -2147483648 ≤ x) (hhi : x < 2147483648) :
    wrapInt32 x = x := by
  unfold wrapInt32
  omega

theorem subU32_eq_sub (a b : Nat) (hba : b ≤ a) (ha : a < U32) : subU32 a b = a - b := by
  unfold subU32
  unfold U32 at *
  rw [Nat.mod_eq_of_lt ha, Nat.mod_eq_of_lt (Nat.lt_of_le_of_lt hba ha)]
  omega

theorem isWithinTimespanMs_self (now : Nat) :
    isWithinTimespanMs now now TACTICAL_INACTIVATE_AFTER_MS = true := by
  simp [isWithinTimespanMs, subU32_self, TACTICAL_INACTIVATE_AFTER_MS]

theorem interceptingKeyboardInput_iff (m : TacticalMessageModule) :
    interceptingKeyboardInput m = true ↔
      (m.currentStage = TACTICAL_MESSAGE_STAGE_CONTACT ∨
        m.currentStage = TACTICAL_MESSAGE_STAGE_DISTANCE ∨
        m.currentStage = TACTICAL_MESSAGE_STAGE_ORDER) := by
  simp [interceptingKeyboardInput, or_assoc]

/-- A tick right after an input in a selection stage changes nothing. -/
theorem runOnce_fresh (m : TacticalMessageModule) (now : Nat)
    (hs : m.currentStage = TACTICAL_MESSAGE_STAGE_CONTACT ∨
      m.currentStage = TACTICAL_MESSAGE_STAGE_DISTANCE ∨
      m.currentStage = TACTICAL_MESSAGE_STAGE_ORDER)
    (hl : m.lastInteractionTime = now) : runOnce m now = (m, 15000, []) := by
  unfold runOnce
  rw [hl, isWithinTimespanMs_self]
  rcases hs with h | h | h <;> simp [h, TACTICAL_INACTIVATE_AFTER_MS]

/-- A tick in stage `INACTIVE` changes nothing, whatever the clock reads. -/
theorem runOnce_inactive (m : TacticalMessageModule) (now : Nat)
    (hs : m.currentStage = TACTICAL_MESSAGE_STAGE_INACTIVE) : runOnce m now = (m, 15000, []) := by
  unfold runOnce
  simp [hs, TACTICAL_INACTIVATE_AFTER_MS]

theorem arrayAt_some (xs : List String) (i : Int) (h0 : 0 ≤ i) (h9 : i < xs.length) :
    ∃ src, arrayAt xs i = some src := by
  have hlt : i.toNat < xs.length := by omega
  refine ⟨xs.get ⟨i.toNat, hlt⟩, ?_⟩
  simp [arrayAt, h0, List.get?_eq_get hlt]

theorem arrayAt_bounds (xs : List String) (i : Int) (src : String)
    (h : arrayAt xs i = some src) : 0 ≤ i ∧ i < xs.length := by
  unfold arrayAt at h
  by_cases h0 : 0 ≤ i
  · rw [if_pos h0] at h
    have hlt : i.toNat < xs.length := by
      by_contra hge
      rw [List.get?_eq_none.mpr (Nat.le_of_not_lt hge)] at h
      cases h
    exact ⟨h0, by omega⟩
  · rw [if_neg h0] at h
    cases h

/-- The composed message is never empty: it holds at least the two separators. -/
theorem snprintf3_length_pos (a b c : String) :
    (snprintf3 MAX_TACTICAL_MESSAGE_LEN a b c).length ≠ 0 := by
  simp only [snprintf3, String.length_mk, List.length_take, String.data_append,
    List.length_append, MAX_TACTICAL_MESSAGE_LEN, MAX_PART_LEN]
  have h : (" " : String).data.length = 1 := rfl
  rw [h]
  omega

/-! ## Single events -/

/-- C4: in stage `CONTACT` (resp. `DISTANCE`) with the cursor inside the list, a `Select` event
stores the cursor and the list entry under the cursor, cut to 9 characters, in the contact (resp.
distance) slot, moves to stage `DISTANCE` (resp. `ORDER`) with the cursor at 0 and stamps the
interaction time; every other field, the two other slots included, is unchanged. -/
theorem select_commits_slot_and_advances (m : TacticalMessageModule) (e : InputEvent) (now : Nat)
    (allocOk : Bool) (he : e.inputEvent = InputEventChar_SELECT)
    (h0 : 0 ≤ m.currentListItemIndex) (h9 : m.currentListItemIndex < getCurrentListSize m) :
    (m.currentStage = TACTICAL_MESSAGE_STAGE_CONTACT →
      ∃ src, arrayAt contacts m.currentListItemIndex = some src ∧
        handleInputEvent m e now allocOk = some
          ({ m with
             selectedContactIndex := m.currentListItemIndex
             selectedContact := strncpy src 9
             currentStage := TACTICAL_MESSAGE_STAGE_DISTANCE
             currentListItemIndex := 0
             lastInteractionTime := now },
           [Effect.requestFocus, Effect.notifyObservers, Effect.tick 15000])) ∧
    (m.currentStage = TACTICAL_MESSAGE_STAGE_DISTANCE →
      ∃ src, arrayAt distances m.currentListItemIndex = some src ∧
        handleInputEvent m e now allocOk = some
          ({ m with
             selectedDistanceIndex := m.currentListItemIndex
             selectedDistance := strncpy src 9
             currentStage := TACTICAL_MESSAGE_STAGE_ORDER
             currentListItemIndex := 0
             lastInteractionTime := now },
           [Effect.requestFocus, Effect.notifyObservers, Effect.tick 15000])) := by
  constructor
  · intro hs
    have h9c : m.currentListItemIndex < 9 := by
      simpa [getCurrentListSize, hs, TACTICAL_CONTACTS_COUNT] using h9
    obtain ⟨src, hsrc⟩ := arrayAt_some contacts m.currentListItemIndex h0
      (by simpa [contacts] using h9c)
    refine ⟨src, hsrc, ?_⟩
    simp [handleInputEvent, hs, he, InputEventChar_SELECT, InputEventChar_UP,
      InputEventChar_DOWN, handleSelect, hsrc, nextStage, refreshAndTick, runOnce_fresh,
      MAX_PART_LEN]
  · intro hs
    have h9c : m.currentListItemIndex < 9 := by
      simpa [getCurrentListSize, hs, TACTICAL_DISTANCES_COUNT] using h9
    obtain ⟨src, hsrc⟩ := arrayAt_some distances m.currentListItemIndex h0
      (by simpa [distances] using h9c)
    refine ⟨src, hsrc, ?_⟩
    simp [handleInputEvent, hs, he, InputEventChar_SELECT, InputEventChar_UP,
      InputEventChar_DOWN, handleSelect, hsrc, nextStage, refreshAndTick, runOnce_fresh,
      MAX_PART_LEN]

/-- Witness of C4: `Select` in stage `CONTACT` with the cursor on entry 4 stores `LP/OP`. -/
theorem select_commits_slot_and_advances_witness :
    selectEvent.inputEvent = InputEventChar_SELECT ∧
    0 ≤ sampleContactStage.currentListItemIndex ∧
    sampleContactStage.currentListItemIndex < getCurrentListSize sampleContactStage ∧
    ∃ src, arrayAt contacts sampleContactStage.currentListItemIndex = some src ∧
      handleInputEvent sampleContactStage selectEvent 7 true = some
        ({ sampleContactStage with
           selectedContactIndex := sampleContactStage.currentListItemIndex
           selectedContact := strncpy src 9
           currentStage := TACTICAL_MESSAGE_STAGE_DISTANCE
           currentListItemIndex := 0
           lastInteractionTime := 7 },
         [Effect.requestFocus, Effect.notifyObservers, Effect.tick 15000]) :=
  ⟨rfl, by decide, by decide,
    (select_commits_slot_and_advances sampleContactStage selectEvent 7 true rfl
      (by decide) (by decide)).1 rfl⟩

/-- C5: a `Cancel` or `Back` event in stage `ORDER` clears the order slot only and moves to stage
`DISTANCE` with the cursor at 0; in stage `DISTANCE` it clears the distance slot only and moves to
stage `CONTACT` with the cursor at 0.  Apart from the interaction time every other field is
unchanged. -/
theorem cancel_steps_back_one_stage (m : TacticalMessageModule) (e : InputEvent) (now : Nat)
    (allocOk : Bool)
    (he : e.inputEvent = InputEventChar_CANCEL ∨ e.inputEvent = InputEventChar_BACK) :
    (m.currentStage = TACTICAL_MESSAGE_STAGE_ORDER →
      handleInputEvent m e now allocOk = some
        ({ m with
           selectedOrderIndex := -1
           selectedOrder := ""
           currentStage := TACTICAL_MESSAGE_STAGE_DISTANCE
           currentListItemIndex := 0
           lastInteractionTime := now },
         [Effect.requestFocus, Effect.notifyObservers, Effect.tick 15000])) ∧
    (m.currentStage = TACTICAL_MESSAGE_STAGE_DISTANCE →
      handleInputEvent m e now allocOk = some
        ({ m with
           selectedDistanceIndex := -1
           selectedDistance := ""
           currentStage := TACTICAL_MESSAGE_STAGE_CONTACT
           currentListItemIndex := 0
           lastInteractionTime := now },
         [Effect.requestFocus, Effect.notifyObservers, Effect.tick 15000])) := by
  constructor
  · intro hs
    rcases he with he | he <;>
      simp [handleInputEvent, hs, he, InputEventChar_SELECT, InputEventChar_UP,
        InputEventChar_DOWN, InputEventChar_CANCEL, InputEventChar_BACK, handleCancel,
        previousStage, refreshAndTick, runOnce_fresh]
  · intro hs
    rcases he with he | he <;>
      simp [handleInputEvent, hs, he, InputEventChar_SELECT, InputEventChar_UP,
        InputEventChar_DOWN, InputEventChar_CANCEL, InputEventChar_BACK, handleCancel,
        previousStage, refreshAndTick, runOnce_fresh]

/-- Witness of C5: `Cancel` in stage `ORDER` drops back to `DISTANCE` and keeps `LP/OP`, `50m`. -/
theorem cancel_steps_back_one_stage_witness :
    (cancelEvent.inputEvent = InputEventChar_CANCEL ∨
      cancelEvent.inputEvent = InputEventChar_BACK) ∧
    handleInputEvent sampleOrderStage cancelEvent 1200 true = some
      ({ sampleOrderStage with
         selectedOrderIndex := -1
         selectedOrder := ""
         currentStage := TACTICAL_MESSAGE_STAGE_DISTANCE
         currentListItemIndex := 0
         lastInteractionTime := 1200 },
       [Effect.requestFocus, Effect.notifyObservers, Effect.tick 15000]) :=
  ⟨Or.inl rfl,
    (cancel_steps_back_one_stage sampleOrderStage cancelEvent 1200 true (Or.inl rfl)).1 rfl⟩

/-- C6: a `Cancel` or `Back` event in stage `CONTACT` yields exactly the state that
`resetSelections` produces: the three indexes are -1, the three slot strings and the composed
message are empty, the cursor is 0 and the stage is `INACTIVE`; the forced tick that ends the
event leaves that state as it is. -/
theorem cancel_from_contact_is_full_reset (m : TacticalMessageModule) (e : InputEvent)
    (now : Nat) (allocOk : Bool)
    (hs : m.currentStage = TACTICAL_MESSAGE_STAGE_CONTACT)
    (he : e.inputEvent = InputEventChar_CANCEL ∨ e.inputEvent = InputEventChar_BACK) :
    handleCancel { m with lastInteractionTime := now } now = resetSelections m now ∧
    runOnce (resetSelections m now) now = (resetSelections m now, 15000, []) ∧
    handleInputEvent m e now allocOk = some
      (resetSelections m now, [Effect.requestFocus, Effect.notifyObservers, Effect.tick 15000]) ∧
    resetSelections m now =
      { m with
        selectedContactIndex := -1
        selectedDistanceIndex := -1
        selectedOrderIndex := -1
        selectedContact := ""
        selectedDistance := ""
        selectedOrder := ""
        constructedMessage := ""
        currentListItemIndex := 0
        currentStage := TACTICAL_MESSAGE_STAGE_INACTIVE
        lastInteractionTime := now } := by
  have hc : handleCancel { m with lastInteractionTime := now } now = resetSelections m now := by
    simp [handleCancel, hs, resetSelections]
  have hr : runOnce (resetSelections m now) now = (resetSelections m now, 15000, []) :=
    runOnce_inactive _ _ rfl
  refine ⟨hc, hr, ?_, rfl⟩
  rcases he with he | he <;>
    simp [handleInputEvent, hs, he, InputEventChar_SELECT, InputEventChar_UP,
      InputEventChar_DOWN, InputEventChar_CANCEL, InputEventChar_BACK, handleCancel,
      resetSelections, refreshAndTick, runOnce, TACTICAL_INACTIVATE_AFTER_MS]

/-- Witness of C6: `Cancel` in the sample `CONTACT` state. -/
theorem cancel_from_contact_is_full_reset_witness :
    sampleContactStage.currentStage = TACTICAL_MESSAGE_STAGE_CONTACT ∧
    (cancelEvent.inputEvent = InputEventChar_CANCEL ∨
      cancelEvent.inputEvent = InputEventChar_BACK) ∧
    handleInputEvent sampleContactStage cancelEvent 50 true = some
      (resetSelections sampleContactStage 50,
        [Effect.requestFocus, Effect.notifyObservers, Effect.tick 15000]) :=
  ⟨rfl, Or.inl rfl,
    (cancel_from_contact_is_full_reset sampleContactStage cancelEvent 50 true rfl
      (Or.inl rfl)).2.2.1⟩

/-! ## The periodic tick -/

/-- C8: in a selection stage, a tick whose clock reading is at least 30000 ms (in 32-bit
unsigned time) after `lastInteractionTime` yields the state of `resetSelections`: the three slots
unselected with empty strings, cursor 0, stage `INACTIVE`; it returns `INT32_MAX`.  A tick less
than 30000 ms after `lastInteractionTime` changes nothing and returns 15000.  When the clock has
not wrapped, the elapsed time is the plain difference. -/
theorem idle_tick_resets_or_keeps (m : TacticalMessageModule) (now : Nat)
    (hs : interceptingKeyboardInput m = true) :
    (30000 ≤ subU32 now m.lastInteractionTime →
      runOnce m now = (resetSelections m now, INT32_MAX, [Effect.notifyObservers]) ∧
      (runOnce m now).1 =
        { m with
          selectedContactIndex := -1
          selectedDistanceIndex := -1
          selectedOrderIndex := -1
          selectedContact := ""
          selectedDistance := ""
          selectedOrder := ""
          constructedMessage := ""
          currentListItemIndex := 0
          currentStage := TACTICAL_MESSAGE_STAGE_INACTIVE
          lastInteractionTime := now }) ∧
    (subU32 now m.lastInteractionTime < 30000 →
      runOnce m now = (m, 15000, []) ∧ (15000 : Int) = TACTICAL_INACTIVATE_AFTER_MS / 2) ∧
    (m.lastInteractionTime ≤ now → now < U32 →
      subU32 now m.lastInteractionTime = now - m.lastInteractionTime) := by
  have hst := (interceptingKeyboardInput_iff m).mp hs
  refine ⟨?_, ?_, fun h1 h2 => subU32_eq_sub _ _ h1 h2⟩
  · intro hge
    have hw : isWithinTimespanMs now m.lastInteractionTime TACTICAL_INACTIVATE_AFTER_MS
        = false := by
      simp [isWithinTimespanMs, TACTICAL_INACTIVATE_AFTER_MS, hge]
    have hrun : runOnce m now = (resetSelections m now, INT32_MAX, [Effect.notifyObservers]) := by
      unfold runOnce
      rw [hw]
      rcases hst with h | h | h <;> simp [h, resetSelections]
    exact ⟨hrun, by rw [hrun]; rfl⟩
  · intro hlt
    have hw : isWithinTimespanMs now m.lastInteractionTime TACTICAL_INACTIVATE_AFTER_MS
        = true := by
      simp [isWithinTimespanMs, TACTICAL_INACTIVATE_AFTER_MS, hlt]
    refine ⟨?_, by decide⟩
    unfold runOnce
    rw [hw]
    rcases hst with h | h | h <;> simp [h, TACTICAL_INACTIVATE_AFTER_MS]

/-- Witness of C8: the sample `ORDER` state, last touched at 1000 ms, ticked at 31000 ms. -/
theorem idle_tick_resets_or_keeps_witness :
    interceptingKeyboardInput sampleOrderStage = true ∧
    30000 ≤ subU32 31000 sampleOrderStage.lastInteractionTime ∧
    runOnce sampleOrderStage 31000 =
      (resetSelections sampleOrderStage 31000, INT32_MAX, [Effect.notifyObservers]) :=
  ⟨by decide, by decide,
    ((idle_tick_resets_or_keeps sampleOrderStage 31000 (by decide)).1 (by decide)).1⟩

/-! ## Failed send -/

/-- C9: in stage `ORDER` with the cursor inside the list, a `Select` event whose packet
allocation fails hands nothing to the transport and returns with stage `ORDER`, the contact and
distance slots as they were, the overlay text `Error: No Packet` and the error flag set. -/
theorem failed_allocation_rolls_back_to_order (m : TacticalMessageModule) (e : InputEvent)
    (now : Nat) (hs : m.currentStage = TACTICAL_MESSAGE_STAGE_ORDER)
    (he : e.inputEvent = InputEventChar_SELECT)
    (h0 : 0 ≤ m.currentListItemIndex) (h9 : m.currentListItemIndex < getCurrentListSize m) :
    ∃ r, handleInputEvent m e now false = some r ∧
      sentPayloads r.2 = [] ∧
      r.1.currentStage = TACTICAL_MESSAGE_STAGE_ORDER ∧
      r.1.selectedContactIndex = m.selectedContactIndex ∧
      r.1.selectedContact = m.selectedContact ∧
      r.1.selectedDistanceIndex = m.selectedDistanceIndex ∧
      r.1.selectedDistance = m.selectedDistance ∧
      r.1.temporaryFeedbackMessage = "Error: No Packet" ∧
      r.1.feedbackIsError = true := by
  have h9c : m.currentListItemIndex < 9 := by
    simpa [getCurrentListSize, hs, TACTICAL_ORDERS_COUNT] using h9
  obtain ⟨src, hsrc⟩ := arrayAt_some orders m.currentListItemIndex h0
    (by simpa [orders] using h9c)
  have hne := snprintf3_length_pos m.selectedContact m.selectedDistance
    (strncpy src (MAX_PART_LEN - 1))
  simp [handleInputEvent, hs, he, InputEventChar_SELECT, InputEventChar_UP,
    InputEventChar_DOWN, handleSelect, commitOrder, hsrc, sendConstructedMessage, hne,
    showTemporaryFeedback, refreshAndTick, runOnce_fresh, sentPayloads]

/-- Witness of C9: the failed send from the sample `ORDER` state. -/
theorem failed_allocation_rolls_back_to_order_witness :
    sampleOrderStage.currentStage = TACTICAL_MESSAGE_STAGE_ORDER ∧
    selectEvent.inputEvent = InputEventChar_SELECT ∧
    0 ≤ sampleOrderStage.currentListItemIndex ∧
    sampleOrderStage.currentListItemIndex < getCurrentListSize sampleOrderStage ∧
    ∃ r, handleInputEvent sampleOrderStage selectEvent 1200 false = some r ∧
      sentPayloads r.2 = [] ∧
      r.1.currentStage = TACTICAL_MESSAGE_STAGE_ORDER ∧
      r.1.selectedContactIndex = sampleOrderStage.selectedContactIndex ∧
      r.1.selectedContact = sampleOrderStage.selectedContact ∧
      r.1.selectedDistanceIndex = sampleOrderStage.selectedDistanceIndex ∧
      r.1.selectedDistance = sampleOrderStage.selectedDistance ∧
      r.1.temporaryFeedbackMessage = "Error: No Packet" ∧
      r.1.feedbackIsError = true :=
  ⟨rfl, rfl, by decide, by decide,
    failed_allocation_rolls_back_to_order sampleOrderStage selectEvent 1200 rfl rfl
      (by decide) (by decide)⟩

/-! ## The invariant is kept by every operation -/

theorem WizardInv_of_not_selecting (m : TacticalMessageModule)
    (h : interceptingKeyboardInput m = false) : WizardInv m := by
  have hn := (interceptingKeyboardInput_iff m).not.mp (by simp [h])
  simp only [not_or] at hn
  refine ⟨fun hi => by simp [h] at hi, fun hd => ?_, fun ho => ?_⟩
  · rcases hd with hd | hd
    · exact absurd hd hn.2.1
    · exact absurd hd hn.2.2
  · exact absurd ho hn.2.2

/-- The invariant only reads the stage, the cursor and the contact and distance slots. -/
theorem WizardInv_congr (m m2 : TacticalMessageModule) (h : WizardInv m)
    (h1 : m2.currentStage = m.currentStage)
    (h2 : m2.currentListItemIndex = m.currentListItemIndex)
    (h3 : m2.selectedContactIndex = m.selectedContactIndex)
    (h4 : m2.selectedContact = m.selectedContact)
    (h5 : m2.selectedDistanceIndex = m.selectedDistanceIndex)
    (h6 : m2.selectedDistance = m.selectedDistance) : WizardInv m2 := by
  unfold WizardInv interceptingKeyboardInput at *
  rw [h1, h2, h3, h4, h5, h6]
  exact h

theorem WizardInv_construct (has_tactical_message enabled : Bool) (now : Nat) :
    WizardInv (construct has_tactical_message enabled now) := by
  apply WizardInv_of_not_selecting
  unfold construct
  split <;> rfl

theorem WizardInv_showTemporaryFeedback (m : TacticalMessageModule) (message : String)
    (isError : Bool) (now : Nat) : WizardInv (showTemporaryFeedback m message isError now).1 :=
  WizardInv_of_not_selecting _ rfl

/-- A tick either changes nothing or ends in stage `INACTIVE`. -/
theorem runOnce_state (m : TacticalMessageModule) (now : Nat) :
    (runOnce m now).1 = m ∨
      (runOnce m now).1.currentStage = TACTICAL_MESSAGE_STAGE_INACTIVE := by
  unfold runOnce
  split_ifs <;> simp_all [resetSelections]

theorem WizardInv_runOnce (m : TacticalMessageModule) (now : Nat) (h : WizardInv m) :
    WizardInv (runOnce m now).1 := by
  rcases runOnce_state m now with hr | hr
  · rw [hr]; exact h
  · exact WizardInv_of_not_selecting _ (by simp [interceptingKeyboardInput, hr])

theorem WizardInv_refreshAndTick (m : TacticalMessageModule) (now : Nat) (before : List Effect)
    (h : WizardInv m) : WizardInv (refreshAndTick m now before).1 :=
  WizardInv_runOnce m now h

theorem getCurrentListSize_selecting (m : TacticalMessageModule)
    (h : interceptingKeyboardInput m = true) : getCurrentListSize m = 9 := by
  rcases (interceptingKeyboardInput_iff m).mp h with hs | hs | hs <;>
    simp [getCurrentListSize, hs, TACTICAL_CONTACTS_COUNT, TACTICAL_DISTANCES_COUNT,
      TACTICAL_ORDERS_COUNT]

theorem getCurrentListSize_not_selecting (m : TacticalMessageModule)
    (h : interceptingKeyboardInput m = false) : getCurrentListSize m = 0 := by
  have hn := (interceptingKeyboardInput_iff m).not.mp (by simp [h])
  simp only [not_or] at hn
  unfold getCurrentListSize
  split <;> simp_all

theorem WizardInv_advanceItem (m : TacticalMessageModule) (now : Nat) (h : WizardInv m) :
    WizardInv (advanceItem m (getCurrentListSize m) now) := by
  cases hi : interceptingKeyboardInput m
  · rw [getCurrentListSize_not_selecting m hi]
    exact h
  · rw [getCurrentListSize_selecting m hi]
    have hc := h.1 hi
    refine ⟨fun _ => ?_, h.2.1, h.2.2⟩
    show 0 ≤ Int.tmod (wrapInt32 (m.currentListItemIndex + 1)) 9 ∧
      Int.tmod (wrapInt32 (m.currentListItemIndex + 1)) 9 < 9
    rw [wrapInt32_of_range _ (by omega) (by omega), Int.tmod_eq_emod (by omega) (by omega)]
    omega

theorem WizardInv_retreatItem (m : TacticalMessageModule) (now : Nat) (h : WizardInv m) :
    WizardInv (retreatItem m (getCurrentListSize m) now) := by
  cases hi : interceptingKeyboardInput m
  · rw [getCurrentListSize_not_selecting m hi]
    exact h
  · rw [getCurrentListSize_selecting m hi]
    have hc := h.1 hi
    refine ⟨fun _ => ?_, h.2.1, h.2.2⟩
    show 0 ≤ Int.tmod (wrapInt32 (wrapInt32 (m.currentListItemIndex - 1) + 9)) 9 ∧
      Int.tmod (wrapInt32 (wrapInt32 (m.currentListItemIndex - 1) + 9)) 9 < 9
    rw [wrapInt32_of_range (m.currentListItemIndex - 1) (by omega) (by omega),
      wrapInt32_of_range _ (by omega) (by omega), Int.tmod_eq_emod (by omega) (by omega)]
    omega

theorem WizardInv_sendConstructedMessage (m m1 : TacticalMessageModule) (now : Nat)
    (allocOk : Bool) (h : WizardInv m)
    (hs : m.currentStage = TACTICAL_MESSAGE_STAGE_ORDER)
    (h2 : m1.currentListItemIndex = m.currentListItemIndex)
    (h3 : m1.selectedContactIndex = m.selectedContactIndex)
    (h4 : m1.selectedContact = m.selectedContact)
    (h5 : m1.selectedDistanceIndex = m.selectedDistanceIndex)
    (h6 : m1.selectedDistance = m.selectedDistance) :
    WizardInv (sendConstructedMessage m1 now allocOk).1 := by
  unfold sendConstructedMessage
  split_ifs
  · exact WizardInv_congr m _ h hs.symm h2 h3 h4 h5 h6
  · exact WizardInv_congr m _ h hs.symm h2 h3 h4 h5 h6
  · exact WizardInv_of_not_selecting _ rfl

theorem nextStage_contact (m : TacticalMessageModule) (now : Nat)
    (h : m.currentStage = TACTICAL_MESSAGE_STAGE_CONTACT) :
    nextStage m now =
      { m with
        currentListItemIndex := 0
        currentStage := TACTICAL_MESSAGE_STAGE_DISTANCE
        lastInteractionTime := now } := by
  simp [nextStage, h]

theorem nextStage_distance (m : TacticalMessageModule) (now : Nat)
    (h : m.currentStage = TACTICAL_MESSAGE_STAGE_DISTANCE) :
    nextStage m now =
      { m with
        currentListItemIndex := 0
        currentStage := TACTICAL_MESSAGE_STAGE_ORDER
        lastInteractionTime := now } := by
  simp [nextStage, h]

theorem previousStage_order (m : TacticalMessageModule) (now : Nat)
    (h : m.currentStage = TACTICAL_MESSAGE_STAGE_ORDER) :
    previousStage m now =
      { m with
        currentListItemIndex := 0
        selectedOrderIndex := -1
        selectedOrder := ""
        currentStage := TACTICAL_MESSAGE_STAGE_DISTANCE
        lastInteractionTime := now } := by
  simp [previousStage, h]

theorem previousStage_distance (m : TacticalMessageModule) (now : Nat)
    (h : m.currentStage = TACTICAL_MESSAGE_STAGE_DISTANCE) :
    previousStage m now =
      { m with
        currentListItemIndex := 0
        selectedDistanceIndex := -1
        selectedDistance := ""
        currentStage := TACTICAL_MESSAGE_STAGE_CONTACT
        lastInteractionTime := now } := by
  simp [previousStage, h]

theorem previousStage_other (m : TacticalMessageModule) (now : Nat)
    (ho : m.currentStage ≠ TACTICAL_MESSAGE_STAGE_ORDER)
    (hd : m.currentStage ≠ TACTICAL_MESSAGE_STAGE_DISTANCE) :
    previousStage m now = { m with currentListItemIndex := 0, lastInteractionTime := now } := by
  simp [previousStage, ho, hd]

theorem WizardInv_handleSelect (m : TacticalMessageModule) (now : Nat) (allocOk : Bool)
    (r : TacticalMessageModule × List Effect) (h : WizardInv m)
    (hr : handleSelect m now allocOk = some r) : WizardInv r.1 := by
  unfold handleSelect at hr
  split_ifs at hr with hc hd ho
  · cases hsrc : arrayAt contacts m.currentListItemIndex with
    | none => simp [hsrc] at hr
    | some src =>
      simp only [hsrc, Option.some.injEq] at hr
      subst hr
      have hb := arrayAt_bounds contacts _ src hsrc
      have hcur : 0 ≤ m.currentListItemIndex ∧ m.currentListItemIndex < 9 := by
        simpa [contacts] using hb
      show WizardInv (nextStage _ now)
      rw [nextStage_contact _ now (by exact hc)]
      exact ⟨fun _ => ⟨le_refl (0 : Int), (by decide : (0 : Int) < 9)⟩,
        fun _ => ⟨hcur.1, hcur.2, src, hsrc, rfl⟩, fun ho2 => by cases ho2⟩
  · cases hsrc : arrayAt distances m.currentListItemIndex with
    | none => simp [hsrc] at hr
    | some src =>
      simp only [hsrc, Option.some.injEq] at hr
      subst hr
      have hb := arrayAt_bounds distances _ src hsrc
      have hcur : 0 ≤ m.currentListItemIndex ∧ m.currentListItemIndex < 9 := by
        simpa [distances] using hb
      show WizardInv (nextStage _ now)
      rw [nextStage_distance _ now (by exact hd)]
      exact ⟨fun _ => ⟨le_refl (0 : Int), (by decide : (0 : Int) < 9)⟩,
        fun _ => h.2.1 (Or.inl hd), fun _ => ⟨hcur.1, hcur.2, src, hsrc, rfl⟩⟩
  · unfold commitOrder at hr
    cases hsrc : arrayAt orders m.currentListItemIndex with
    | none => simp [hsrc] at hr
    | some src =>
      simp only [hsrc, Option.some.injEq] at hr
      subst hr
      exact WizardInv_sendConstructedMessage m _ now allocOk h ho rfl rfl rfl rfl rfl
  · simp only [Option.some.injEq] at hr
    subst hr
    exact h

theorem WizardInv_handleCancel (m : TacticalMessageModule) (now : Nat) (h : WizardInv m) :
    WizardInv (handleCancel m now) := by
  unfold handleCancel
  split_ifs with hc
  · exact WizardInv_of_not_selecting _ rfl
  · by_cases ho : m.currentStage = TACTICAL_MESSAGE_STAGE_ORDER
    · rw [previousStage_order m now ho]
      exact ⟨fun _ => ⟨le_refl (0 : Int), (by decide : (0 : Int) < 9)⟩,
        fun _ => h.2.1 (Or.inr ho), fun ho2 => by cases ho2⟩
    · by_cases hd : m.currentStage = TACTICAL_MESSAGE_STAGE_DISTANCE
      · rw [previousStage_distance m now hd]
        refine ⟨fun _ => ⟨le_refl (0 : Int), (by decide : (0 : Int) < 9)⟩, ?_, ?_⟩
        · intro h2
          rcases h2 with h2 | h2 <;> cases h2
        · intro h2
          cases h2
      · rw [previousStage_other m now ho hd]
        exact WizardInv_of_not_selecting _ (by simp [interceptingKeyboardInput, hc, ho, hd])

theorem WizardInv_handleInputEvent (m : TacticalMessageModule) (e : InputEvent) (now : Nat)
    (allocOk : Bool) (r : TacticalMessageModule × List Effect) (h : WizardInv m)
    (hr : handleInputEvent m e now allocOk = some r) : WizardInv r.1 := by
  have hstamp : WizardInv { m with lastInteractionTime := now } := h
  unfold handleInputEvent at hr
  split_ifs at hr
  · cases hr; exact h
  · cases hr
    apply WizardInv_refreshAndTick
    refine ⟨fun _ => ⟨le_refl (0 : Int), (by decide : (0 : Int) < 9)⟩, ?_, ?_⟩
    · intro h2
      rcases h2 with h2 | h2 <;> cases h2
    · intro h2
      cases h2
  · cases hr; exact h
  · cases hr
    exact WizardInv_refreshAndTick _ _ _ (WizardInv_retreatItem _ now hstamp)
  · cases hr
    exact WizardInv_refreshAndTick _ _ _ (WizardInv_advanceItem _ now hstamp)
  · cases hsel : handleSelect { m with lastInteractionTime := now } now allocOk with
    | none => simp [hsel] at hr
    | some r2 =>
      simp only [hsel, Option.some.injEq] at hr
      subst hr
      exact WizardInv_refreshAndTick _ _ _ (WizardInv_handleSelect _ now allocOk r2 hstamp hsel)
  · cases hr
    exact WizardInv_refreshAndTick _ _ _ (WizardInv_handleCancel _ now hstamp)
  · cases hr; exact hstamp

theorem WizardInv_step (m : TacticalMessageModule) (op : Op)
    (r : TacticalMessageModule × List Effect) (h : WizardInv m) (hr : step m op = some r) :
    WizardInv r.1 := by
  cases op with
  | input e now allocOk => exact WizardInv_handleInputEvent m e now allocOk r h hr
  | tick now =>
    simp only [step, Option.some.injEq] at hr
    subst hr
    exact WizardInv_runOnce m now h
  | feedback message isError now =>
    simp only [step, Option.some.injEq] at hr
    subst hr
    exact WizardInv_showTemporaryFeedback m message isError now

theorem WizardInv_of_reachable (m : TacticalMessageModule) (h : Reachable m) : WizardInv m := by
  induction h with
  | construct c e now => exact WizardInv_construct c e now
  | step m op r _ hr ih => exact WizardInv_step m op r ih hr

/-! ## Reachable states -/

theorem handleSelect_defined (m : TacticalMessageModule) (now : Nat) (allocOk : Bool)
    (h : WizardInv m) : ∃ r, handleSelect m now allocOk = some r := by
  unfold handleSelect
  split_ifs with hc hd ho
  · have hcur := h.1 (by simp [interceptingKeyboardInput, hc])
    obtain ⟨src, hsrc⟩ := arrayAt_some contacts m.currentListItemIndex hcur.1
      (by simpa [contacts] using hcur.2)
    simp [hsrc]
  · have hcur := h.1 (by simp [interceptingKeyboardInput, hd])
    obtain ⟨src, hsrc⟩ := arrayAt_some distances m.currentListItemIndex hcur.1
      (by simpa [distances] using hcur.2)
    simp [hsrc]
  · have hcur := h.1 (by simp [interceptingKeyboardInput, ho])
    obtain ⟨src, hsrc⟩ := arrayAt_some orders m.currentListItemIndex hcur.1
      (by simpa [orders] using hcur.2)
    simp [commitOrder, hsrc]
  · exact ⟨_, rfl⟩

/-- Under the invariant no input event reads outside a reference list. -/
theorem handleInputEvent_defined (m : TacticalMessageModule) (e : InputEvent) (now : Nat)
    (allocOk : Bool) (h : WizardInv m) : ∃ r, handleInputEvent m e now allocOk = some r := by
  have hstamp : WizardInv { m with lastInteractionTime := now } := h
  obtain ⟨r, hr⟩ := handleSelect_defined _ now allocOk hstamp
  unfold handleInputEvent
  split_ifs <;> simp [hr]

/-- C3: in every reachable state whose stage is one of the three selection stages the cursor
satisfies `0 ≤ currentListItemIndex < getCurrentListSize() = 9`, the entry of the current list
under the cursor exists, and no input event reads outside a reference list. -/
theorem cursor_in_bounds_when_selecting (m : TacticalMessageModule) (hr : Reachable m)
    (hs : m.currentStage = TACTICAL_MESSAGE_STAGE_CONTACT ∨
      m.currentStage = TACTICAL_MESSAGE_STAGE_DISTANCE ∨
      m.currentStage = TACTICAL_MESSAGE_STAGE_ORDER) :
    0 ≤ m.currentListItemIndex ∧
    m.currentListItemIndex < getCurrentListSize m ∧
    getCurrentListSize m = 9 ∧
    (∃ list src, getCurrentList m = some list ∧
      arrayAt list m.currentListItemIndex = some src) ∧
    ∀ e now allocOk, ∃ r, handleInputEvent m e now allocOk = some r := by
  have hinv := WizardInv_of_reachable m hr
  have hi := (interceptingKeyboardInput_iff m).mpr hs
  have hcur := hinv.1 hi
  have hsize := getCurrentListSize_selecting m hi
  refine ⟨hcur.1, by rw [hsize]; exact hcur.2, hsize, ?_,
    fun e now allocOk => handleInputEvent_defined m e now allocOk hinv⟩
  rcases hs with h | h | h
  · obtain ⟨src, hsrc⟩ := arrayAt_some contacts m.currentListItemIndex hcur.1
      (by simpa [contacts] using hcur.2)
    exact ⟨contacts, src, by simp [getCurrentList, h], hsrc⟩
  · obtain ⟨src, hsrc⟩ := arrayAt_some distances m.currentListItemIndex hcur.1
      (by simpa [distances] using hcur.2)
    exact ⟨distances, src, by simp [getCurrentList, h], hsrc⟩
  · obtain ⟨src, hsrc⟩ := arrayAt_some orders m.currentListItemIndex hcur.1
      (by simpa [orders] using hcur.2)
    exact ⟨orders, src, by simp [getCurrentList, h], hsrc⟩

/-- Witness of C3: the freshly activated wizard is reachable and in stage `CONTACT`. -/
theorem cursor_in_bounds_when_selecting_witness :
    Reachable sampleActivated ∧
    sampleActivated.currentStage = TACTICAL_MESSAGE_STAGE_CONTACT ∧
    0 ≤ sampleActivated.currentListItemIndex ∧
    sampleActivated.currentListItemIndex < getCurrentListSize sampleActivated :=
  have hreach : Reachable sampleActivated :=
    Reachable.step (construct true true 0) (Op.input selectEvent 0 true)
      (sampleActivated, [Effect.requestFocus, Effect.notifyObservers, Effect.tick 15000])
      (Reachable.construct true true 0) (by decide)
  have h := cursor_in_bounds_when_selecting sampleActivated hreach (Or.inl rfl)
  ⟨hreach, rfl, h.1, h.2.1⟩

theorem strncpy_entry_ne_empty :
    ∀ src ∈ contacts ++ distances ++ orders, strncpy src (MAX_PART_LEN - 1) ≠ "" := by
  decide

theorem SlotFilled_index_ne (list : List String) (index : Int) (text : String)
    (h : SlotFilled list index text) : index ≠ -1 := by
  have h0 := h.1
  omega

theorem SlotFilled_text_ne (list : List String) (index : Int) (text : String)
    (hl : ∀ src ∈ list, src ∈ contacts ++ distances ++ orders)
    (h : SlotFilled list index text) : text ≠ "" := by
  obtain ⟨_, _, src, hsrc, ht⟩ := h
  rw [ht]
  apply strncpy_entry_ne_empty
  apply hl
  unfold arrayAt at hsrc
  split_ifs at hsrc
  exact List.get?_mem hsrc

/-- C2: whenever a reachable state confirms the order (`Select` in stage `ORDER`), the handler
calls the send operation in a state `m1` with stage `SENDING` in which all three indexes differ
from -1 and all three slot strings are non-empty; the composed message is non-empty, so the send
operation does not take its empty-message branch and never shows `Error: Empty Msg`. -/
theorem send_is_invoked_with_all_slots_selected (m : TacticalMessageModule) (hr : Reachable m)
    (e : InputEvent) (now : Nat) (allocOk : Bool)
    (hs : m.currentStage = TACTICAL_MESSAGE_STAGE_ORDER)
    (he : e.inputEvent = InputEventChar_SELECT) :
    ∃ m1, commitOrder { m with lastInteractionTime := now } = some m1 ∧
      handleInputEvent m e now allocOk = some
        (refreshAndTick (sendConstructedMessage m1 now allocOk).1 now
          (sendConstructedMessage m1 now allocOk).2) ∧
      m1.currentStage = TACTICAL_MESSAGE_STAGE_SENDING ∧
      m1.selectedContactIndex ≠ -1 ∧ m1.selectedDistanceIndex ≠ -1 ∧
      m1.selectedOrderIndex ≠ -1 ∧
      m1.selectedContact ≠ "" ∧ m1.selectedDistance ≠ "" ∧ m1.selectedOrder ≠ "" ∧
      m1.constructedMessage.length ≠ 0 ∧
      (sendConstructedMessage m1 now allocOk).1.temporaryFeedbackMessage
        ≠ "Error: Empty Msg" := by
  have hinv := WizardInv_of_reachable m hr
  have hcur := hinv.1 (by simp [interceptingKeyboardInput, hs])
  have hcontact := hinv.2.1 (Or.inr hs)
  have hdistance := hinv.2.2 hs
  obtain ⟨src, hsrc⟩ := arrayAt_some orders m.currentListItemIndex hcur.1
    (by simpa [orders] using hcur.2)
  have horder : SlotFilled orders m.currentListItemIndex (strncpy src (MAX_PART_LEN - 1)) :=
    ⟨hcur.1, hcur.2, src, hsrc, rfl⟩
  have hne := snprintf3_length_pos m.selectedContact m.selectedDistance
    (strncpy src (MAX_PART_LEN - 1))
  refine ⟨{ m with
      lastInteractionTime := now
      selectedOrderIndex := m.currentListItemIndex
      selectedOrder := strncpy src (MAX_PART_LEN - 1)
      constructedMessage := snprintf3 MAX_TACTICAL_MESSAGE_LEN m.selectedContact
        m.selectedDistance (strncpy src (MAX_PART_LEN - 1))
      currentStage := TACTICAL_MESSAGE_STAGE_SENDING },
    by simp only [commitOrder, hsrc], ?_, rfl,
    SlotFilled_index_ne _ _ _ hcontact, SlotFilled_index_ne _ _ _ hdistance,
    SlotFilled_index_ne _ _ _ horder,
    SlotFilled_text_ne _ _ _ (fun s hs2 => by simp [hs2]) hcontact,
    SlotFilled_text_ne _ _ _ (fun s hs2 => by simp [hs2]) hdistance,
    SlotFilled_text_ne _ _ _ (fun s hs2 => by simp [hs2]) horder, hne, ?_⟩
  · simp [handleInputEvent, hs, he, InputEventChar_SELECT, InputEventChar_UP,
      InputEventChar_DOWN, handleSelect, commitOrder, hsrc]
  · cases allocOk <;> simp [sendConstructedMessage, hne, showTemporaryFeedback, resetSelections]

/-- Witness of C2: the state reached by activation and two `Select` presses is reachable and in
stage `ORDER`; the confirm sends with all slots filled. -/
theorem send_is_invoked_with_all_slots_selected_witness :
    Reachable sampleReachedOrder ∧
    sampleReachedOrder.currentStage = TACTICAL_MESSAGE_STAGE_ORDER ∧
    selectEvent.inputEvent = InputEventChar_SELECT ∧
    ∃ m1, commitOrder { sampleReachedOrder with lastInteractionTime := 5 } = some m1 ∧
      m1.selectedContactIndex ≠ -1 ∧ m1.selectedDistanceIndex ≠ -1 ∧
      m1.selectedOrderIndex ≠ -1 ∧ m1.constructedMessage.length ≠ 0 :=
  have h1 : Reachable sampleActivated :=
    Reachable.step (construct true true 0) (Op.input selectEvent 0 true)
      (sampleActivated, [Effect.requestFocus, Effect.notifyObservers, Effect.tick 15000])
      (Reachable.construct true true 0) (by decide)
  have h2 : Reachable { sampleActivated with
      currentStage := TACTICAL_MESSAGE_STAGE_DISTANCE
      selectedContactIndex := 0
      selectedContact := "Inf" } :=
    Reachable.step sampleActivated (Op.input selectEvent 0 true)
      (_, [Effect.requestFocus, Effect.notifyObservers, Effect.tick 15000]) h1 (by decide)
  have h3 : Reachable sampleReachedOrder :=
    Reachable.step _ (Op.input selectEvent 0 true)
      (sampleReachedOrder, [Effect.requestFocus, Effect.notifyObservers, Effect.tick 15000])
      h2 (by decide)
  have h := send_is_invoked_with_all_slots_selected sampleReachedOrder h3 selectEvent 5 true
    rfl rfl
  ⟨h3, rfl, rfl, h.elim fun m1 hm =>
    ⟨m1, hm.1, hm.2.2.2.1, hm.2.2.2.2.1, hm.2.2.2.2.2.1, hm.2.2.2.2.2.2.2.2.2.1⟩⟩

/-! ## Complete runs -/

/-- C1: evaluation of the wizard on the picks (0, 0, 7).  A freshly activated wizard that
confirms contact 0, distance 0 and order 7 hands `Inf <25m Spread ou` to the transport, while the
three tokens taken verbatim from the reference lists spell `Inf <25m Spread out`: the order token
has ten characters and the slot keeps nine.  For (0, 0, 0) the payload is `Inf <25m ENGAGE`. -/
theorem payload_truncates_spread_out :
    scriptPayloads 0 0 7 0 true = some ["Inf <25m Spread ou"] ∧
    verbatimMessage 0 0 7 = some "Inf <25m Spread out" ∧
    scriptPayloads 0 0 0 0 true = some ["Inf <25m ENGAGE"] ∧
    verbatimMessage 0 0 0 = some "Inf <25m ENGAGE" := by
  decide

/-- C7: evaluation of an activation from an inactive state with a stale slot.  The run `staleOps`
reaches stage `INACTIVE` with the contact slot still holding index 0 and `Inf`; the `Select` that
activates the wizard from there resets the index to -1 and leaves the string `Inf` in place. -/
theorem activation_keeps_stale_slot_string :
    (run (construct true true 0) staleOps).map (fun r => selectionOf r.1) =
      some (TACTICAL_MESSAGE_STAGE_INACTIVE, 0, (0, -1, -1), ("Inf", "", "")) ∧
    (run (construct true true 0) (staleOps ++ [Op.input selectEvent 2001 true])).map
        (fun r => selectionOf r.1) =
      some (TACTICAL_MESSAGE_STAGE_CONTACT, 0, (-1, -1, -1), ("Inf", "", "")) :=
  ⟨rfl, rfl⟩

/-- C10: evaluation of a successful send at 0 ms followed by a tick at 2001 ms.  After the send
the stage is `INACTIVE` and the overlay reads `Sent!` with expiry time 2000; the tick after the
expiry time leaves the overlay text in place. -/
theorem sent_overlay_outlives_expiry :
    (run (construct true true 0)
        (Op.input selectEvent 0 true :: wizardScript 0 0 0 0 true)).map
        (fun r => overlayOf r.1) =
      some (TACTICAL_MESSAGE_STAGE_INACTIVE, "Sent!", false, 2000) ∧
    (run (construct true true 0)
        (Op.input selectEvent 0 true :: wizardScript 0 0 0 0 true ++ [Op.tick 2001])).map
        (fun r => overlayOf r.1) =
      some (TACTICAL_MESSAGE_STAGE_INACTIVE, "Sent!", false, 2000) := by
  decide

/-! ## What a complete run sends -/

theorem sentPayloads_append (a b : List Effect) :
    sentPayloads (a ++ b) = sentPayloads a ++ sentPayloads b := by
  induction a with
  | nil => rfl
  | cons x xs ih => cases x <;> simp [sentPayloads, ih]

theorem run_cons (m : TacticalMessageModule) (op : Op) (ops : List Op) :
    run m (op :: ops) =
      match step m op with
      | none => none
      | some r =>
        match run r.1 ops with
        | none => none
        | some r2 => some (r2.1, r.2 ++ r2.2) := rfl

theorem run_append (m m1 m2 : TacticalMessageModule) (a b : List Op) (e1 e2 : List Effect)
    (h1 : run m a = some (m1, e1)) (h2 : run m1 b = some (m2, e2)) :
    run m (a ++ b) = some (m2, e1 ++ e2) := by
  induction a generalizing m e1 with
  | nil =>
    simp only [run, Option.some.injEq, Prod.mk.injEq] at h1
    obtain ⟨rfl, rfl⟩ := h1
    simpa using h2
  | cons op ops ih =>
    rw [run_cons] at h1
    rw [List.cons_append, run_cons]
    cases hstep : step m op with
    | none => simp [hstep] at h1
    | some r =>
      simp only [hstep] at h1 ⊢
      cases hrest : run r.1 ops with
      | none => simp [hrest] at h1
      | some r2 =>
        simp only [hrest, Option.some.injEq, Prod.mk.injEq] at h1
        obtain ⟨rfl, rfl⟩ := h1
        rw [ih r.1 r2.2 hrest]
        simp

/-- A `Down` event below the end of the list moves the cursor one entry down. -/
theorem handleInputEvent_down (m : TacticalMessageModule) (now : Nat) (allocOk : Bool)
    (hs : interceptingKeyboardInput m = true)
    (h0 : 0 ≤ m.currentListItemIndex) (h8 : m.currentListItemIndex + 1 < 9) :
    handleInputEvent m downEvent now allocOk = some
      ({ m with
         currentListItemIndex := m.currentListItemIndex + 1
         lastInteractionTime := now },
       [Effect.requestFocus, Effect.notifyObservers, Effect.tick 15000]) := by
  have hmod : Int.tmod (wrapInt32 (m.currentListItemIndex + 1)) 9
      = m.currentListItemIndex + 1 := by
    rw [wrapInt32_of_range _ (by omega) (by omega), Int.tmod_eq_emod (by omega) (by omega)]
    omega
  rcases (interceptingKeyboardInput_iff m).mp hs with h | h | h <;>
    simp [handleInputEvent, h, downEvent, InputEventChar_DOWN, InputEventChar_UP,
      InputEventChar_SELECT, getCurrentListSize, TACTICAL_CONTACTS_COUNT,
      TACTICAL_DISTANCES_COUNT, TACTICAL_ORDERS_COUNT, advanceItem, hmod, refreshAndTick,
      runOnce_fresh]

theorem run_downs (now : Nat) (n : Nat) (m : TacticalMessageModule)
    (hs : interceptingKeyboardInput m = true)
    (h0 : 0 ≤ m.currentListItemIndex) (h8 : m.currentListItemIndex + n < 9) :
    ∃ t effs, run m (List.replicate n (Op.input downEvent now true)) = some
        ({ m with
           currentListItemIndex := m.currentListItemIndex + n
           lastInteractionTime := t }, effs) ∧
      sentPayloads effs = [] := by
  induction n generalizing m with
  | zero => exact ⟨m.lastInteractionTime, [], by simp [run], rfl⟩
  | succ n ih =>
    have hstep := handleInputEvent_down m now true hs h0 (by omega)
    obtain ⟨t, effs, hrun, hsent⟩ := ih
      { m with
        currentListItemIndex := m.currentListItemIndex + 1
        lastInteractionTime := now } hs (by show 0 ≤ m.currentListItemIndex + 1; omega)
      (by show m.currentListItemIndex + 1 + (n : Int) < 9; omega)
    refine ⟨t, [Effect.requestFocus, Effect.notifyObservers, Effect.tick 15000] ++ effs, ?_, ?_⟩
    · rw [List.replicate_succ, run_cons]
      simp only [step, hstep, hrun]
      simp only [Option.some.injEq, Prod.mk.injEq, and_true]
      have : m.currentListItemIndex + 1 + (n : Int) = m.currentListItemIndex + ((n + 1 : Nat) : Int) := by
        push_cast
        omega
      simp [this]
    · simp [sentPayloads_append, hsent, sentPayloads]

theorem handleInputEvent_select_contact (m : TacticalMessageModule) (e : InputEvent)
    (now : Nat) (allocOk : Bool) (src : String)
    (he : e.inputEvent = InputEventChar_SELECT)
    (hs : m.currentStage = TACTICAL_MESSAGE_STAGE_CONTACT)
    (hsrc : arrayAt contacts m.currentListItemIndex = some src) :
    handleInputEvent m e now allocOk = some
      ({ m with
         selectedContactIndex := m.currentListItemIndex
         selectedContact := strncpy src 9
         currentStage := TACTICAL_MESSAGE_STAGE_DISTANCE
         currentListItemIndex := 0
         lastInteractionTime := now },
       [Effect.requestFocus, Effect.notifyObservers, Effect.tick 15000]) := by
  simp [handleInputEvent, hs, he, InputEventChar_SELECT, InputEventChar_UP,
    InputEventChar_DOWN, handleSelect, hsrc, nextStage, refreshAndTick, runOnce_fresh,
    MAX_PART_LEN]

theorem handleInputEvent_select_distance (m : TacticalMessageModule) (e : InputEvent)
    (now : Nat) (allocOk : Bool) (src : String)
    (he : e.inputEvent = InputEventChar_SELECT)
    (hs : m.currentStage = TACTICAL_MESSAGE_STAGE_DISTANCE)
    (hsrc : arrayAt distances m.currentListItemIndex = some src) :
    handleInputEvent m e now allocOk = some
      ({ m with
         selectedDistanceIndex := m.currentListItemIndex
         selectedDistance := strncpy src 9
         currentStage := TACTICAL_MESSAGE_STAGE_ORDER
         currentListItemIndex := 0
         lastInteractionTime := now },
       [Effect.requestFocus, Effect.notifyObservers, Effect.tick 15000]) := by
  simp [handleInputEvent, hs, he, InputEventChar_SELECT, InputEventChar_UP,
    InputEventChar_DOWN, handleSelect, hsrc, nextStage, refreshAndTick, runOnce_fresh,
    MAX_PART_LEN]

/-- A confirmed order with a successful allocation: the composed message goes to the transport,
the selections are reset, the stage is `INACTIVE` and the overlay reads `Sent!`. -/
theorem handleInputEvent_select_order_sent (m : TacticalMessageModule) (e : InputEvent)
    (now : Nat) (src : String)
    (he : e.inputEvent = InputEventChar_SELECT)
    (hs : m.currentStage = TACTICAL_MESSAGE_STAGE_ORDER)
    (hsrc : arrayAt orders m.currentListItemIndex = some src) :
    ∃ effs, handleInputEvent m e now true = some
        ({ resetSelections m now with
           temporaryFeedbackMessage := "Sent!"
           feedbackIsError := false
           feedbackEndTime := addU32 now TACTICAL_FEEDBACK_DURATION_MS }, effs) ∧
      sentPayloads effs =
        [snprintf3 MAX_TACTICAL_MESSAGE_LEN m.selectedContact m.selectedDistance
          (strncpy src 9)] := by
  have hne := snprintf3_length_pos m.selectedContact m.selectedDistance
    (strncpy src (MAX_PART_LEN - 1))
  simp [handleInputEvent, hs, he, InputEventChar_SELECT, InputEventChar_UP,
    InputEventChar_DOWN, handleSelect, commitOrder, hsrc, sendConstructedMessage, hne,
    showTemporaryFeedback, resetSelections, refreshAndTick, runOnce, sentPayloads,
    TACTICAL_INACTIVATE_AFTER_MS]
  simp [MAX_PART_LEN]

theorem arrayAt_natCast (xs : List String) (i : Nat) : arrayAt xs (i : Int) = xs.get? i := by
  simp [arrayAt]

theorem entry_index_lt_nine (xs : List String) (hl : xs.length = 9) (i : Nat) (src : String)
    (h : xs.get? i = some src) : (0 : Int) + (i : Int) < 9 := by
  have hi : i < xs.length := by
    by_contra hge
    rw [List.get?_eq_none.mpr (Nat.le_of_not_lt hge)] at h
    cases h
  omega

/-- Moving the cursor to contact `i` and confirming it. -/
theorem run_pick_contact (m : TacticalMessageModule) (i now : Nat) (src : String)
    (hs : m.currentStage = TACTICAL_MESSAGE_STAGE_CONTACT)
    (hcur : m.currentListItemIndex = 0) (hsrc : contacts.get? i = some src) :
    ∃ effs, run m (pick i now true) = some
        ({ m with
           selectedContactIndex := i
           selectedContact := strncpy src 9
           currentStage := TACTICAL_MESSAGE_STAGE_DISTANCE
           currentListItemIndex := 0
           lastInteractionTime := now }, effs) ∧
      sentPayloads effs = [] := by
  have hlt := entry_index_lt_nine contacts rfl i src hsrc
  obtain ⟨t, effs, hrun, hsent⟩ := run_downs now i m
    (by simp [interceptingKeyboardInput, hs]) (by omega) (by rw [hcur]; exact hlt)
  rw [hcur, zero_add] at hrun
  have hsel := handleInputEvent_select_contact
    { m with currentListItemIndex := (i : Int), lastInteractionTime := t }
    selectEvent now true src rfl hs (by rw [arrayAt_natCast]; exact hsrc)
  refine ⟨effs ++ ([Effect.requestFocus, Effect.notifyObservers, Effect.tick 15000] ++ []),
    ?_, by simp [sentPayloads_append, hsent, sentPayloads]⟩
  unfold pick
  apply run_append _ _ _ _ _ _ _ hrun
  rw [run_cons]
  simp only [step, hsel, run]

/-- Moving the cursor to distance `j` and confirming it. -/
theorem run_pick_distance (m : TacticalMessageModule) (j now : Nat) (src : String)
    (hs : m.currentStage = TACTICAL_MESSAGE_STAGE_DISTANCE)
    (hcur : m.currentListItemIndex = 0) (hsrc : distances.get? j = some src) :
    ∃ effs, run m (pick j now true) = some
        ({ m with
           selectedDistanceIndex := j
           selectedDistance := strncpy src 9
           currentStage := TACTICAL_MESSAGE_STAGE_ORDER
           currentListItemIndex := 0
           lastInteractionTime := now }, effs) ∧
      sentPayloads effs = [] := by
  have hlt := entry_index_lt_nine distances rfl j src hsrc
  obtain ⟨t, effs, hrun, hsent⟩ := run_downs now j m
    (by simp [interceptingKeyboardInput, hs]) (by omega) (by rw [hcur]; exact hlt)
  rw [hcur, zero_add] at hrun
  have hsel := handleInputEvent_select_distance
    { m with currentListItemIndex := (j : Int), lastInteractionTime := t }
    selectEvent now true src rfl hs (by rw [arrayAt_natCast]; exact hsrc)
  refine ⟨effs ++ ([Effect.requestFocus, Effect.notifyObservers, Effect.tick 15000] ++ []),
    ?_, by simp [sentPayloads_append, hsent, sentPayloads]⟩
  unfold pick
  apply run_append _ _ _ _ _ _ _ hrun
  rw [run_cons]
  simp only [step, hsel, run]

/-- Moving the cursor to order `k` and confirming it, the allocation succeeding. -/
theorem run_pick_order (m : TacticalMessageModule) (k now : Nat) (src : String)
    (hs : m.currentStage = TACTICAL_MESSAGE_STAGE_ORDER)
    (hcur : m.currentListItemIndex = 0) (hsrc : orders.get? k = some src) :
    ∃ effs, run m (pick k now true) = some
        ({ resetSelections m now with
           temporaryFeedbackMessage := "Sent!"
           feedbackIsError := false
           feedbackEndTime := addU32 now TACTICAL_FEEDBACK_DURATION_MS }, effs) ∧
      sentPayloads effs =
        [snprintf3 MAX_TACTICAL_MESSAGE_LEN m.selectedContact m.selectedDistance
          (strncpy src 9)] := by
  have hlt := entry_index_lt_nine orders rfl k src hsrc
  obtain ⟨t, effs, hrun, hsent⟩ := run_downs now k m
    (by simp [interceptingKeyboardInput, hs]) (by omega) (by rw [hcur]; exact hlt)
  rw [hcur, zero_add] at hrun
  obtain ⟨effs2, hsel, hsent2⟩ := handleInputEvent_select_order_sent
    { m with currentListItemIndex := (k : Int), lastInteractionTime := t }
    selectEvent now src rfl hs (by rw [arrayAt_natCast]; exact hsrc)
  refine ⟨effs ++ (effs2 ++ []), ?_, by simpa [sentPayloads_append, hsent] using hsent2⟩
  unfold pick
  apply run_append _ _ _ _ _ _ _ hrun
  rw [run_cons]
  simp only [step, hsel, run]
  rfl

/-- What the code sends for the picks `(i, j, k)`: the three list entries, each cut to nine
characters, joined by single spaces and cut to 29 characters. -/
theorem scriptPayloads_eq (i j k now : Nat) (c d o : String)
    (hc : contacts.get? i = some c) (hd : distances.get? j = some d)
    (ho : orders.get? k = some o) :
    scriptPayloads i j k now true =
      some [snprintf3 MAX_TACTICAL_MESSAGE_LEN (strncpy c 9) (strncpy d 9) (strncpy o 9)] := by
  have hact : activated now = some
      ({ memberDefaults with
         currentStage := TACTICAL_MESSAGE_STAGE_CONTACT
         lastInteractionTime := now },
       [Effect.requestFocus, Effect.notifyObservers, Effect.tick 15000]) := by
    simp [activated, step, construct, isEnabledViaConfig, commonInit, resetSelections,
      memberDefaults, handleInputEvent, selectEvent, refreshAndTick, runOnce_fresh]
  obtain ⟨e1, h1, s1⟩ := run_pick_contact _ i now c
    (show ({ memberDefaults with
      currentStage := TACTICAL_MESSAGE_STAGE_CONTACT
      lastInteractionTime := now } : TacticalMessageModule).currentStage = _ from rfl) rfl hc
  obtain ⟨e2, h2, s2⟩ := run_pick_distance _ j now d
    (show ({ memberDefaults with
      selectedContactIndex := i
      selectedContact := strncpy c 9
      currentStage := TACTICAL_MESSAGE_STAGE_DISTANCE
      currentListItemIndex := 0
      lastInteractionTime := now } : TacticalMessageModule).currentStage = _ from rfl) rfl hd
  obtain ⟨e3, h3, s3⟩ := run_pick_order _ k now o
    (show ({ memberDefaults with
      selectedContactIndex := i
      selectedContact := strncpy c 9
      selectedDistanceIndex := j
      selectedDistance := strncpy d 9
      currentStage := TACTICAL_MESSAGE_STAGE_ORDER
      currentListItemIndex := 0
      lastInteractionTime := now } : TacticalMessageModule).currentStage = _ from rfl) rfl ho
  have h12 := run_append _ _ _ _ _ _ _ h1 h2
  have h123 := run_append _ _ _ _ _ _ _ h12 h3
  unfold scriptPayloads wizardScript
  rw [hact]
  simp only [h123]
  simp [sentPayloads_append, s1, s2, s3]

theorem strncpy_of_length_le (s : String) (n : Nat) (h : s.length ≤ n) : strncpy s n = s := by
  unfold strncpy
  rw [List.take_of_length_le h]

theorem snprintf3_of_fits (size : Nat) (a b c : String)
    (h : a.length + b.length + c.length + 2 ≤ size - 1) :
    snprintf3 size a b c = a ++ " " ++ b ++ " " ++ c := by
  unfold snprintf3
  rw [List.take_of_length_le]
  have hsp : (" " : String).length = 1 := rfl
  have hlen : (a ++ " " ++ b ++ " " ++ c).length
      = a.length + 1 + b.length + 1 + c.length := by
    simp only [String.length_append, hsp]
  have hdata : (a ++ " " ++ b ++ " " ++ c).data.length = (a ++ " " ++ b ++ " " ++ c).length :=
    rfl
  omega

theorem entry_lengths :
    (∀ s ∈ contacts ++ distances, s.length ≤ 9) ∧
    (∀ s ∈ orders, s ≠ "Spread out" → s.length ≤ 9) := by
  decide

/-- For every order but `Spread out` (index 7) the payload is the three reference entries
verbatim, joined by single spaces. -/
theorem scriptPayloads_verbatim (i j k now : Nat) (c d o : String)
    (hc : contacts.get? i = some c) (hd : distances.get? j = some d)
    (ho : orders.get? k = some o) (hk : k ≠ 7) :
    scriptPayloads i j k now true = some [c ++ " " ++ d ++ " " ++ o] ∧
    verbatimMessage i j k = some (c ++ " " ++ d ++ " " ++ o) := by
  have hcl : c.length ≤ 9 :=
    entry_lengths.1 c (List.mem_append_left _ (List.get?_mem hc))
  have hdl : d.length ≤ 9 :=
    entry_lengths.1 d (List.mem_append_right _ (List.get?_mem hd))
  have hne : o ≠ "Spread out" := by
    have hk9 := entry_index_lt_nine orders rfl k o ho
    have hk9n : k < 9 := by omega
    interval_cases k <;> simp [orders] at ho <;> subst ho <;> first | decide | exact absurd rfl hk
  have hol : o.length ≤ 9 := entry_lengths.2 o (List.get?_mem ho) hne
  refine ⟨?_, by unfold verbatimMessage; rw [hc, hd, ho]⟩
  rw [scriptPayloads_eq i j k now c d o hc hd ho, strncpy_of_length_le c 9 hcl,
    strncpy_of_length_le d 9 hdl, strncpy_of_length_le o 9 hol,
    snprintf3_of_fits _ c d o (by simp only [MAX_TACTICAL_MESSAGE_LEN, MAX_PART_LEN]; omega)]

/-! ## Activation and the overlay after a send -/

/-- What the activation branch does: stage `CONTACT`, cursor 0, the three indexes -1, the
interaction time stamped; the slot strings, the composed message and the overlay are kept. -/
theorem handleInputEvent_activation (m : TacticalMessageModule) (e : InputEvent) (now : Nat)
    (allocOk : Bool) (hs : m.currentStage = TACTICAL_MESSAGE_STAGE_INACTIVE)
    (he : e.inputEvent = InputEventChar_SELECT) (hsrc : e.source = "button") :
    handleInputEvent m e now allocOk = some
      ({ m with
         currentStage := TACTICAL_MESSAGE_STAGE_CONTACT
         currentListItemIndex := 0
         selectedContactIndex := -1
         selectedDistanceIndex := -1
         selectedOrderIndex := -1
         lastInteractionTime := now },
       [Effect.requestFocus, Effect.notifyObservers, Effect.tick 15000]) := by
  simp [handleInputEvent, hs, he, hsrc, refreshAndTick, runOnce_fresh]

/-- Ticks alone never change an inactive wizard, so an overlay text left in stage `INACTIVE`
stays. -/
theorem run_ticks_inactive (m : TacticalMessageModule) (times : List Nat)
    (hs : m.currentStage = TACTICAL_MESSAGE_STAGE_INACTIVE) :
    ∃ effs, run m (times.map Op.tick) = some (m, effs) := by
  induction times with
  | nil => exact ⟨[], rfl⟩
  | cons t ts ih =>
    obtain ⟨effs, h⟩ := ih
    refine ⟨[] ++ effs, ?_⟩
    rw [List.map_cons, run_cons]
    simp only [step, runOnce_inactive m t hs, h]

/-! ## Cursor arithmetic -/

theorem advance_index (c listMax : Int) (h0 : 0 ≤ c) (h1 : c < listMax)
    (hmax : listMax ≤ 2147483647) :
    Int.tmod (wrapInt32 (c + 1)) listMax = (c + 1) % listMax ∧
    0 ≤ (c + 1) % listMax ∧ (c + 1) % listMax < listMax ∧
    (c + 1 < listMax → (c + 1) % listMax = c + 1) ∧
    (c + 1 = listMax → (c + 1) % listMax = 0) := by
  refine ⟨?_, Int.emod_nonneg _ (by omega),
    Int.emod_lt_of_pos _ (by omega), fun h => Int.emod_eq_of_lt (by omega) h, fun h => ?_⟩
  · rw [wrapInt32_of_range _ (by omega) (by omega)]
    exact Int.tmod_eq_emod (by omega) (by omega)
  · rw [h]
    exact Int.emod_self

theorem retreat_index (c listMax : Int) (h0 : 0 ≤ c) (h1 : c < listMax)
    (hmax : listMax ≤ 1073741824) :
    Int.tmod (wrapInt32 (wrapInt32 (c - 1) + listMax)) listMax = (c - 1 + listMax) % listMax ∧
    0 ≤ (c - 1 + listMax) % listMax ∧ (c - 1 + listMax) % listMax < listMax ∧
    (1 ≤ c → (c - 1 + listMax) % listMax = c - 1) ∧
    (c = 0 → (c - 1 + listMax) % listMax = listMax - 1) := by
  refine ⟨?_, Int.emod_nonneg _ (by omega),
    Int.emod_lt_of_pos _ (by omega), fun h => ?_, fun h => ?_⟩
  · rw [wrapInt32_of_range (c - 1) (by omega) (by omega),
      wrapInt32_of_range _ (by omega) (by omega)]
    exact Int.tmod_eq_emod (by omega) (by omega)
  · rw [Int.add_emod_self]
    exact Int.emod_eq_of_lt (by omega) (by omega)
  · have hsum : c - 1 + listMax = listMax - 1 := by omega
    rw [hsum]
    exact Int.emod_eq_of_lt (by omega) (by omega)

/-- With a list of at most nine entries the intermediate values of the cursor arithmetic stay
far inside the range of `int`. -/
theorem cursor_arithmetic_fits_int (c listMax : Int) (h0 : 0 ≤ c) (h1 : c < listMax)
    (h9 : listMax ≤ 9) :
    c + 1 ≤ INT32_MAX ∧ -INT32_MAX - 1 ≤ c - 1 ∧ c - 1 + listMax ≤ INT32_MAX := by
  unfold INT32_MAX
  omega

theorem tmod_nonpos (a b : Int) (ha : a ≤ 0) : Int.tmod a b ≤ 0 := by
  have h := Int.tmod_nonneg (-b) (show 0 ≤ -a by omega)
  have hd := Int.tmod_def a b
  have hd2 := Int.tmod_def (-a) (-b)
  rw [Int.neg_tdiv, Int.tdiv_neg, Int.neg_neg, Int.neg_mul] at hd2
  linarith

/-- The bound `2 ^ 30` on the list length is the largest possible: for every longer list that
an `int` can count, retreating from the last entry overflows and leaves a cursor that is not
positive, where `(cursor - 1 + listMax) mod listMax` is `listMax - 2`. -/
theorem retreat_overflows_above_bound (m : TacticalMessageModule) (listMax : Int) (now : Nat)
    (hlo : 1073741824 < listMax) (hhi : listMax ≤ 2147483647)
    (hc : m.currentListItemIndex = listMax - 1) :
    (retreatItem m listMax now).currentListItemIndex ≤ 0 ∧
    (m.currentListItemIndex - 1 + listMax) % listMax = listMax - 2 := by
  have hne : listMax ≠ 0 := by omega
  constructor
  · simp only [retreatItem, if_neg hne]
    rw [hc, wrapInt32_of_range (listMax - 1 - 1) (by omega) (by omega)]
    apply tmod_nonpos
    unfold wrapInt32
    omega
  · have hsum : listMax - 1 - 1 = listMax - 2 := by omega
    rw [hc, Int.add_emod_self, hsum]
    exact Int.emod_eq_of_lt (by omega) (by omega)

/-- C13, as the claim states it: with `listMax = 2147483647` and the cursor at 2147483646, both
inside the claim's range, the 32-bit sum `cursor - 1 + listMax` overflows: `retreatItem` leaves
the cursor at -4, not at `(cursor - 1 + listMax) mod listMax = 2147483645`, and advancing after
retreating gives -3, not the original cursor. -/
theorem retreat_overflows_for_huge_list :
    (1 : Int) ≤ 2147483647 ∧ 0 ≤ sampleHugeCursor.currentListItemIndex ∧
    sampleHugeCursor.currentListItemIndex < 2147483647 ∧
    (sampleHugeCursor.currentListItemIndex - 1 + 2147483647) % 2147483647 = 2147483645 ∧
    (retreatItem sampleHugeCursor 2147483647 0).currentListItemIndex = -4 ∧
    (advanceItem (retreatItem sampleHugeCursor 2147483647 0) 2147483647 0).currentListItemIndex
      = -3 := by
  decide

/-- C13, amended: for every `listMax` with `1 ≤ listMax ≤ 2 ^ 30` and every cursor in
`[0, listMax)`, `advanceItem` sets the cursor to `(cursor + 1) mod listMax`, `retreatItem` sets
it to `(cursor - 1 + listMax) mod listMax`, and retreating after advancing as well as advancing
after retreating gives back the original cursor; with `listMax = 0` both leave the state as it
is. -/
theorem advance_and_retreat_are_inverse (m : TacticalMessageModule) (listMax : Int)
    (now now2 : Nat) (hl : 1 ≤ listMax) (hmax : listMax ≤ 1073741824)
    (h0 : 0 ≤ m.currentListItemIndex) (h1 : m.currentListItemIndex < listMax) :
    (advanceItem m listMax now).currentListItemIndex
      = (m.currentListItemIndex + 1) % listMax ∧
    (retreatItem m listMax now).currentListItemIndex
      = (m.currentListItemIndex - 1 + listMax) % listMax ∧
    (retreatItem (advanceItem m listMax now) listMax now2).currentListItemIndex
      = m.currentListItemIndex ∧
    (advanceItem (retreatItem m listMax now) listMax now2).currentListItemIndex
      = m.currentListItemIndex ∧
    advanceItem m 0 now = m ∧ retreatItem m 0 now = m := by
  have hne : listMax ≠ 0 := by omega
  have hmax2 : listMax ≤ 2147483647 := by omega
  have ha := advance_index m.currentListItemIndex listMax h0 h1 hmax2
  have hr := retreat_index m.currentListItemIndex listMax h0 h1 hmax
  have hadv : (advanceItem m listMax now).currentListItemIndex
      = (m.currentListItemIndex + 1) % listMax := by
    simp only [advanceItem, if_neg hne]
    exact ha.1
  have hret : (retreatItem m listMax now).currentListItemIndex
      = (m.currentListItemIndex - 1 + listMax) % listMax := by
    simp only [retreatItem, if_neg hne]
    exact hr.1
  refine ⟨hadv, hret, ?_, ?_, by simp [advanceItem], by simp [retreatItem]⟩
  · have hr2 := retreat_index (advanceItem m listMax now).currentListItemIndex listMax
      (by rw [hadv]; exact ha.2.1) (by rw [hadv]; exact ha.2.2.1) hmax
    have hstep : (retreatItem (advanceItem m listMax now) listMax now2).currentListItemIndex
        = ((advanceItem m listMax now).currentListItemIndex - 1 + listMax) % listMax := by
      simp only [retreatItem, if_neg hne]
      exact hr2.1
    rw [hstep]
    by_cases hlast : m.currentListItemIndex + 1 = listMax
    · have hz : (advanceItem m listMax now).currentListItemIndex = 0 := by
        rw [hadv]; exact ha.2.2.2.2 hlast
      rw [hr2.2.2.2.2 hz]
      omega
    · have hv : (advanceItem m listMax now).currentListItemIndex
          = m.currentListItemIndex + 1 := by
        rw [hadv]; exact ha.2.2.2.1 (by omega)
      rw [hr2.2.2.2.1 (by rw [hv]; omega), hv]
      omega
  · have ha2 := advance_index (retreatItem m listMax now).currentListItemIndex listMax
      (by rw [hret]; exact hr.2.1) (by rw [hret]; exact hr.2.2.1) hmax2
    have hstep : (advanceItem (retreatItem m listMax now) listMax now2).currentListItemIndex
        = ((retreatItem m listMax now).currentListItemIndex + 1) % listMax := by
      simp only [advanceItem, if_neg hne]
      exact ha2.1
    rw [hstep]
    by_cases hfirst : m.currentListItemIndex = 0
    · have hv : (retreatItem m listMax now).currentListItemIndex = listMax - 1 := by
        rw [hret]; exact hr.2.2.2.2 hfirst
      rw [ha2.2.2.2.2 (by rw [hv]; omega)]
      omega
    · have hv : (retreatItem m listMax now).currentListItemIndex
          = m.currentListItemIndex - 1 := by
        rw [hret]; exact hr.2.2.2.1 (by omega)
      rw [ha2.2.2.2.1 (by rw [hv]; omega), hv]
      omega

/-- Witness of C13 amended: the sample `CONTACT` state (cursor 4) in a list of nine entries. -/
theorem advance_and_retreat_are_inverse_witness :
    (1 : Int) ≤ 9 ∧ (9 : Int) ≤ 1073741824 ∧ 0 ≤ sampleContactStage.currentListItemIndex ∧
    sampleContactStage.currentListItemIndex < 9 ∧
    (retreatItem (advanceItem sampleContactStage 9 10) 9 20).currentListItemIndex
      = sampleContactStage.currentListItemIndex ∧
    (advanceItem (retreatItem sampleContactStage 9 10) 9 20).currentListItemIndex
      = sampleContactStage.currentListItemIndex :=
  have h := advance_and_retreat_are_inverse sampleContactStage 9 10 20 (by decide) (by decide)
    (by decide) (by decide)
  ⟨by decide, by decide, by decide, by decide, h.2.2.1, h.2.2.2.1⟩

/-! ## Ignored events -/

/-- C14: in stage `DISABLED` or `SENDING` every event, and in stage `INACTIVE` every event that
is not a `Select` from source `button`, leaves the whole state unchanged and causes no effect at
all: no send, no forced tick, no redraw. -/
theorem ignored_events_change_nothing (m : TacticalMessageModule) (e : InputEvent) (now : Nat)
    (allocOk : Bool)
    (h : m.currentStage = TACTICAL_MESSAGE_STAGE_DISABLED ∨
      m.currentStage = TACTICAL_MESSAGE_STAGE_SENDING ∨
      (m.currentStage = TACTICAL_MESSAGE_STAGE_INACTIVE ∧
        ¬ (e.inputEvent = InputEventChar_SELECT ∧ e.source = "button"))) :
    handleInputEvent m e now allocOk = some (m, []) := by
  unfold handleInputEvent
  rcases h with h | h | ⟨h, hne⟩
  · simp [h]
  · simp [h]
  · rw [if_neg (by simp [h]), if_neg (fun hc => hne hc.2), if_pos h]

/-- Witness of C14: a `Cancel` event on the inactive screen. -/
theorem ignored_events_change_nothing_witness :
    (memberDefaults.currentStage = TACTICAL_MESSAGE_STAGE_DISABLED ∨
      memberDefaults.currentStage = TACTICAL_MESSAGE_STAGE_SENDING ∨
      (memberDefaults.currentStage = TACTICAL_MESSAGE_STAGE_INACTIVE ∧
        ¬ (cancelEvent.inputEvent = InputEventChar_SELECT ∧ cancelEvent.source = "button"))) ∧
    handleInputEvent memberDefaults cancelEvent 40 true = some (memberDefaults, []) :=
  ⟨Or.inr (Or.inr ⟨rfl, by decide⟩),
    ignored_events_change_nothing memberDefaults cancelEvent 40 true
      (Or.inr (Or.inr ⟨rfl, by decide⟩))⟩

/-! ## The feedback overlay -/

/-- C17: in stage `FEEDBACK`, a tick with `now > feedbackEndTime` empties the overlay text,
clears the error flag and sets the stage to `INACTIVE`, every other field (cursor and slots
included) unchanged; a tick with `now ≤ feedbackEndTime` changes nothing; both return 100. -/
theorem feedback_tick_expires_overlay (m : TacticalMessageModule) (now : Nat)
    (hs : m.currentStage = TACTICAL_MESSAGE_STAGE_FEEDBACK) :
    (now > m.feedbackEndTime →
      runOnce m now =
        ({ m with
           temporaryFeedbackMessage := ""
           feedbackIsError := false
           currentStage := TACTICAL_MESSAGE_STAGE_INACTIVE }, 100, [Effect.notifyObservers])) ∧
    (now ≤ m.feedbackEndTime → runOnce m now = (m, 100, [])) := by
  constructor
  · intro h
    simp [runOnce, hs, h]
  · intro h
    simp [runOnce, hs, Nat.not_lt.mpr h]

/-- Witness of C17: the sample overlay expires at 5000 ms and is ticked at 5001 ms. -/
theorem feedback_tick_expires_overlay_witness :
    sampleFeedbackStage.currentStage = TACTICAL_MESSAGE_STAGE_FEEDBACK ∧
    5001 > sampleFeedbackStage.feedbackEndTime ∧
    runOnce sampleFeedbackStage 5001 =
      ({ sampleFeedbackStage with
         temporaryFeedbackMessage := ""
         feedbackIsError := false
         currentStage := TACTICAL_MESSAGE_STAGE_INACTIVE }, 100, [Effect.notifyObservers]) :=
  ⟨rfl, by decide, (feedback_tick_expires_overlay sampleFeedbackStage 5001 rfl).1 (by decide)⟩

theorem addU32_eq_add (a b : Nat) (h : a + b < U32) : addU32 a b = a + b :=
  Nat.mod_eq_of_lt h

/-- C18: `showTemporaryFeedback(text, isError)` at clock reading `now` sets the overlay text to
`text`, the error flag to `isError`, `feedbackEndTime` to `now + 2000` (in the 32-bit unsigned
arithmetic of the clock, which is the plain sum as long as it stays below `2 ^ 32`) and the stage
to `FEEDBACK`; cursor, slots, composed message and `lastInteractionTime` are unchanged. -/
theorem showTemporaryFeedback_sets_overlay (m : TacticalMessageModule) (text : String)
    (isError : Bool) (now : Nat) :
    (showTemporaryFeedback m text isError now).1 =
      { m with
        temporaryFeedbackMessage := text
        feedbackIsError := isError
        feedbackEndTime := addU32 now 2000
        currentStage := TACTICAL_MESSAGE_STAGE_FEEDBACK } ∧
    (showTemporaryFeedback m text isError now).2 =
      [Effect.notifyObservers, Effect.setIntervalFromNow 100] ∧
    (now + 2000 < U32 →
      (showTemporaryFeedback m text isError now).1.feedbackEndTime = now + 2000) :=
  ⟨rfl, rfl, fun h => addU32_eq_add now 2000 h⟩

/-- Witness of C18: an overlay shown at 1200 ms expires at 3200 ms. -/
theorem showTemporaryFeedback_sets_overlay_witness :
    1200 + 2000 < U32 ∧
    (showTemporaryFeedback sampleOrderStage "Low battery" true 1200).1.feedbackEndTime
      = 1200 + 2000 :=
  ⟨by decide,
    (showTemporaryFeedback_sets_overlay sampleOrderStage "Low battery" true 1200).2.2
      (by decide)⟩

/-! ## Composition and drawing -/

theorem strncpy_length_le (src : String) (n : Nat) : (strncpy src n).length ≤ n := by
  simp only [strncpy, String.length_mk, List.length_take]
  omega

/-- C19: three slot strings of at most 9 characters each are composed without any cut: the
message written into the 30-byte buffer is `contact ++ " " ++ distance ++ " " ++ order`, of
length at most 29 = `MAX_TACTICAL_MESSAGE_LEN - 1`. -/
theorem composition_never_truncates (a b c : String)
    (ha : a.length ≤ MAX_PART_LEN - 1) (hb : b.length ≤ MAX_PART_LEN - 1)
    (hc : c.length ≤ MAX_PART_LEN - 1) :
    snprintf3 MAX_TACTICAL_MESSAGE_LEN a b c = a ++ " " ++ b ++ " " ++ c ∧
    (snprintf3 MAX_TACTICAL_MESSAGE_LEN a b c).length ≤ 29 ∧
    MAX_TACTICAL_MESSAGE_LEN - 1 = 29 ∧ MAX_PART_LEN - 1 = 9 := by
  have h9 : MAX_PART_LEN - 1 = 9 := rfl
  have h29 : MAX_TACTICAL_MESSAGE_LEN - 1 = 29 := rfl
  rw [h9] at ha hb hc
  have heq := snprintf3_of_fits MAX_TACTICAL_MESSAGE_LEN a b c (by rw [h29]; omega)
  refine ⟨heq, ?_, h29, h9⟩
  rw [heq]
  have hsp : (" " : String).length = 1 := rfl
  simp only [String.length_append, hsp]
  omega

/-- Witness of C19: the longest strings the slots can hold. -/
theorem composition_never_truncates_witness :
    ("Spread ou" : String).length ≤ MAX_PART_LEN - 1 ∧
    snprintf3 MAX_TACTICAL_MESSAGE_LEN "Spread ou" "Spread ou" "Spread ou"
      = "Spread ou" ++ " " ++ "Spread ou" ++ " " ++ "Spread ou" :=
  ⟨by decide,
    (composition_never_truncates "Spread ou" "Spread ou" "Spread ou" (by decide) (by decide)
      (by decide)).1⟩

/-- The message composed by the order confirm is the three stored strings in full whenever the
contact and distance slots hold at most 9 characters. -/
theorem commitOrder_message (m m1 : TacticalMessageModule)
    (ha : m.selectedContact.length ≤ 9) (hb : m.selectedDistance.length ≤ 9)
    (h : commitOrder m = some m1) :
    m1.constructedMessage
      = m1.selectedContact ++ " " ++ m1.selectedDistance ++ " " ++ m1.selectedOrder := by
  unfold commitOrder at h
  cases hsrc : arrayAt orders m.currentListItemIndex with
  | none => simp [hsrc] at h
  | some src =>
    simp only [hsrc, Option.some.injEq] at h
    subst h
    exact snprintf3_of_fits MAX_TACTICAL_MESSAGE_LEN _ _ _
      (by
        have hc := strncpy_length_le src (MAX_PART_LEN - 1)
        have h9 : MAX_PART_LEN - 1 = 9 := rfl
        have h29 : MAX_TACTICAL_MESSAGE_LEN - 1 = 29 := rfl
        omega)

/-- C20: `shouldDraw` depends on the stage alone: it is false exactly in stage `DISABLED`, so two
states in the same stage draw alike, with or without an overlay. -/
theorem shouldDraw_false_iff_disabled (m : TacticalMessageModule) :
    (shouldDraw m = false ↔ m.currentStage = TACTICAL_MESSAGE_STAGE_DISABLED) ∧
    (shouldDraw m = true ↔ m.currentStage ≠ TACTICAL_MESSAGE_STAGE_DISABLED) ∧
    ∀ m2 : TacticalMessageModule, m2.currentStage = m.currentStage →
      shouldDraw m2 = shouldDraw m := by
  refine ⟨?_, ?_, ?_⟩
  · unfold shouldDraw
    by_cases h : m.currentStage = TACTICAL_MESSAGE_STAGE_DISABLED <;> simp [h]
  · unfold shouldDraw
    by_cases h : m.currentStage = TACTICAL_MESSAGE_STAGE_DISABLED <;> simp [h]
  · intro m2 h2
    unfold shouldDraw
    rw [h2]
    by_cases h : m.currentStage = TACTICAL_MESSAGE_STAGE_DISABLED <;> simp [h]

/-! ## Slots of the reachable states -/

theorem SlotsInv_congr (m m2 : TacticalMessageModule) (h : SlotsInv m)
    (h1 : m2.selectedContactIndex = m.selectedContactIndex)
    (h2 : m2.selectedContact = m.selectedContact)
    (h3 : m2.selectedDistanceIndex = m.selectedDistanceIndex)
    (h4 : m2.selectedDistance = m.selectedDistance)
    (h5 : m2.selectedOrderIndex = m.selectedOrderIndex)
    (h6 : m2.selectedOrder = m.selectedOrder) : SlotsInv m2 := by
  unfold SlotsInv at *
  rw [h1, h2, h3, h4, h5, h6]
  exact h

theorem SlotsInv_unselected (m : TacticalMessageModule)
    (h1 : m.selectedContactIndex = -1) (h2 : m.selectedDistanceIndex = -1)
    (h3 : m.selectedOrderIndex = -1) : SlotsInv m :=
  ⟨Or.inl h1, Or.inl h2, Or.inl h3⟩

theorem SlotFilled_of_arrayAt (list : List String) (hl : list.length = 9) (index : Int)
    (src : String) (h : arrayAt list index = some src) :
    SlotFilled list index (strncpy src (MAX_PART_LEN - 1)) := by
  have hb := arrayAt_bounds list index src h
  rw [hl] at hb
  exact ⟨hb.1, by exact_mod_cast hb.2, src, h, rfl⟩

/-- A tick leaves the slots alone or resets all of them. -/
theorem runOnce_slots (m : TacticalMessageModule) (now : Nat) :
    ((runOnce m now).1.selectedContactIndex = m.selectedContactIndex ∧
      (runOnce m now).1.selectedContact = m.selectedContact ∧
      (runOnce m now).1.selectedDistanceIndex = m.selectedDistanceIndex ∧
      (runOnce m now).1.selectedDistance = m.selectedDistance ∧
      (runOnce m now).1.selectedOrderIndex = m.selectedOrderIndex ∧
      (runOnce m now).1.selectedOrder = m.selectedOrder) ∨
    ((runOnce m now).1.selectedContactIndex = -1 ∧
      (runOnce m now).1.selectedDistanceIndex = -1 ∧
      (runOnce m now).1.selectedOrderIndex = -1) := by
  unfold runOnce
  split_ifs <;> simp_all [resetSelections]

theorem SlotsInv_runOnce (m : TacticalMessageModule) (now : Nat) (h : SlotsInv m) :
    SlotsInv (runOnce m now).1 := by
  rcases runOnce_slots m now with hk | hr
  · exact SlotsInv_congr m _ h hk.1 hk.2.1 hk.2.2.1 hk.2.2.2.1 hk.2.2.2.2.1 hk.2.2.2.2.2
  · exact SlotsInv_unselected _ hr.1 hr.2.1 hr.2.2

theorem SlotsInv_handleSelect (m : TacticalMessageModule) (now : Nat) (allocOk : Bool)
    (r : TacticalMessageModule × List Effect) (h : SlotsInv m)
    (hr : handleSelect m now allocOk = some r) : SlotsInv r.1 := by
  unfold handleSelect at hr
  split_ifs at hr with hc hd ho
  · cases hsrc : arrayAt contacts m.currentListItemIndex with
    | none => simp [hsrc] at hr
    | some src =>
      simp only [hsrc, Option.some.injEq] at hr
      subst hr
      show SlotsInv (nextStage _ now)
      rw [nextStage_contact _ now (by exact hc)]
      exact ⟨Or.inr (SlotFilled_of_arrayAt contacts rfl _ src hsrc), h.2.1, h.2.2⟩
  · cases hsrc : arrayAt distances m.currentListItemIndex with
    | none => simp [hsrc] at hr
    | some src =>
      simp only [hsrc, Option.some.injEq] at hr
      subst hr
      show SlotsInv (nextStage _ now)
      rw [nextStage_distance _ now (by exact hd)]
      exact ⟨h.1, Or.inr (SlotFilled_of_arrayAt distances rfl _ src hsrc), h.2.2⟩
  · unfold commitOrder at hr
    cases hsrc : arrayAt orders m.currentListItemIndex with
    | none => simp [hsrc] at hr
    | some src =>
      simp only [hsrc, Option.some.injEq] at hr
      subst hr
      have hfilled := SlotFilled_of_arrayAt orders rfl _ src hsrc
      unfold sendConstructedMessage
      split_ifs
      · exact ⟨h.1, h.2.1, Or.inr hfilled⟩
      · exact ⟨h.1, h.2.1, Or.inr hfilled⟩
      · exact SlotsInv_unselected _ rfl rfl rfl
  · simp only [Option.some.injEq] at hr
    subst hr
    exact h

theorem SlotsInv_handleCancel (m : TacticalMessageModule) (now : Nat) (h : SlotsInv m) :
    SlotsInv (handleCancel m now) := by
  unfold handleCancel
  split_ifs with hc
  · exact SlotsInv_unselected _ rfl rfl rfl
  · by_cases ho : m.currentStage = TACTICAL_MESSAGE_STAGE_ORDER
    · rw [previousStage_order m now ho]
      exact ⟨h.1, h.2.1, Or.inl rfl⟩
    · by_cases hd : m.currentStage = TACTICAL_MESSAGE_STAGE_DISTANCE
      · rw [previousStage_distance m now hd]
        exact ⟨h.1, Or.inl rfl, h.2.2⟩
      · rw [previousStage_other m now ho hd]
        exact h

theorem SlotsInv_advanceItem (m : TacticalMessageModule) (listMax : Int) (now : Nat)
    (h : SlotsInv m) : SlotsInv (advanceItem m listMax now) := by
  unfold advanceItem
  split_ifs
  · exact h
  · exact h

theorem SlotsInv_retreatItem (m : TacticalMessageModule) (listMax : Int) (now : Nat)
    (h : SlotsInv m) : SlotsInv (retreatItem m listMax now) := by
  unfold retreatItem
  split_ifs
  · exact h
  · exact h

theorem SlotsInv_handleInputEvent (m : TacticalMessageModule) (e : InputEvent) (now : Nat)
    (allocOk : Bool) (r : TacticalMessageModule × List Effect) (h : SlotsInv m)
    (hr : handleInputEvent m e now allocOk = some r) : SlotsInv r.1 := by
  have hstamp : SlotsInv { m with lastInteractionTime := now } := h
  unfold handleInputEvent at hr
  split_ifs at hr
  · cases hr; exact h
  · cases hr
    exact SlotsInv_runOnce _ now (SlotsInv_unselected _ rfl rfl rfl)
  · cases hr; exact h
  · cases hr
    exact SlotsInv_runOnce _ now (SlotsInv_retreatItem _ _ now hstamp)
  · cases hr
    exact SlotsInv_runOnce _ now (SlotsInv_advanceItem _ _ now hstamp)
  · cases hsel : handleSelect { m with lastInteractionTime := now } now allocOk with
    | none => simp [hsel] at hr
    | some r2 =>
      simp only [hsel, Option.some.injEq] at hr
      subst hr
      exact SlotsInv_runOnce _ now (SlotsInv_handleSelect _ now allocOk r2 hstamp hsel)
  · cases hr
    exact SlotsInv_runOnce _ now (SlotsInv_handleCancel _ now hstamp)
  · cases hr; exact hstamp

/-- The half of the slot invariant that the code keeps: in every reachable state a slot whose
index is not -1 holds the entry of its reference list at that index, cut to 9 characters. -/
theorem SlotsInv_of_reachable (m : TacticalMessageModule) (h : Reachable m) : SlotsInv m := by
  induction h with
  | construct c e now =>
    apply SlotsInv_unselected <;>
      · unfold construct
        split <;> rfl
  | step m op r _ hr ih =>
    cases op with
    | input e now allocOk => exact SlotsInv_handleInputEvent m e now allocOk r ih hr
    | tick now =>
      simp only [step, Option.some.injEq] at hr
      subst hr
      exact SlotsInv_runOnce m now ih
    | feedback message isError now =>
      simp only [step, Option.some.injEq] at hr
      subst hr
      exact ih

/-- Every state at the end of a run from a reachable state is reachable. -/
theorem Reachable_of_run (ops : List Op) (m : TacticalMessageModule)
    (r : TacticalMessageModule × List Effect) (h : Reachable m) (hr : run m ops = some r) :
    Reachable r.1 := by
  induction ops generalizing m r with
  | nil =>
    simp only [run, Option.some.injEq] at hr
    subst hr
    exact h
  | cons op ops ih =>
    rw [run_cons] at hr
    cases hstep : step m op with
    | none => simp [hstep] at hr
    | some r1 =>
      simp only [hstep] at hr
      cases hrest : run r1.1 ops with
      | none => simp [hrest] at hr
      | some r2 =>
        simp only [hrest, Option.some.injEq] at hr
        subst hr
        exact ih r1.1 r2 (Reachable.step m op r1 h hstep) hrest

theorem Reachable_of_run_map {α : Type} (ops : List Op) (f : TacticalMessageModule → α) (a : α)
    (h : (run (construct true true 0) ops).map (fun r => f r.1) = some a) :
    ∃ m, Reachable m ∧ f m = a := by
  cases hr : run (construct true true 0) ops with
  | none => simp [hr] at h
  | some r =>
    simp only [hr, Option.map_some', Option.some.injEq] at h
    exact ⟨r.1, Reachable_of_run ops _ r (Reachable.construct true true 0) hr, h⟩

/-- C11: evaluation of two reachable states whose overlay is not empty although the stage is not
`FEEDBACK`: after a successful send the overlay reads `Sent!` in stage `INACTIVE`, after a failed
allocation it reads `Error: No Packet` in stage `ORDER`. -/
theorem overlay_shown_outside_feedback_stage :
    (∃ m, Reachable m ∧
      overlayOf m = (TACTICAL_MESSAGE_STAGE_INACTIVE, "Sent!", false, 2000)) ∧
    (∃ m, Reachable m ∧
      overlayOf m = (TACTICAL_MESSAGE_STAGE_ORDER, "Error: No Packet", true, 2000)) :=
  ⟨Reachable_of_run_map sentOps overlayOf _ (by decide),
    Reachable_of_run_map failedSendOps overlayOf _ (by decide)⟩

/-- C12: evaluation of a reachable state whose contact slot has index -1 and the non-empty
string `Inf`: the state after `staleOps` and the `Select` that activates the wizard again. -/
theorem reachable_slot_string_without_index :
    ∃ m, Reachable m ∧
      selectionOf m = (TACTICAL_MESSAGE_STAGE_CONTACT, 0, (-1, -1, -1), ("Inf", "", "")) :=
  Reachable_of_run_map (staleOps ++ [Op.input selectEvent 2001 true]) selectionOf _ rfl

/-! ## Stage `DISABLED` -/

/-- Input events and ticks keep a disabled wizard as it is. -/
theorem disabled_kept_by_input_and_tick (m : TacticalMessageModule) (e : InputEvent)
    (now : Nat) (allocOk : Bool) (hs : m.currentStage = TACTICAL_MESSAGE_STAGE_DISABLED) :
    handleInputEvent m e now allocOk = some (m, []) ∧ runOnce m now = (m, INT32_MAX, []) := by
  constructor
  · simp [handleInputEvent, hs]
  · simp [runOnce, hs]

/-- C15: evaluation of `showTemporaryFeedback` on a wizard constructed disabled: the stage
leaves `DISABLED` for `FEEDBACK`; a tick after the expiry time then makes it `INACTIVE` and a
`Select` of the button starts the selection. -/
theorem showTemporaryFeedback_leaves_disabled :
    (construct false false 0).currentStage = TACTICAL_MESSAGE_STAGE_DISABLED ∧
    (showTemporaryFeedback (construct false false 0) "Low battery" false 0).1.currentStage
      = TACTICAL_MESSAGE_STAGE_FEEDBACK ∧
    (run (construct false false 0)
        [Op.feedback "Low battery" false 0, Op.tick 2001,
         Op.input selectEvent 2002 true]).map (fun r => r.1.currentStage)
      = some TACTICAL_MESSAGE_STAGE_CONTACT := by
  decide

/-! ## Events of another kind -/

/-- C16, as the claim states it: a `Left` key in stage `ORDER` at 1200 ms does change the state,
the idle timer moves from 1000 to 1200. -/
theorem other_event_moves_idle_timer :
    sampleOrderStage.lastInteractionTime = 1000 ∧
    (handleInputEvent sampleOrderStage leftEvent 1200 true).map
        (fun r => r.1.lastInteractionTime) = some 1200 ∧
    handleInputEvent sampleOrderStage leftEvent 1200 true ≠ some (sampleOrderStage, []) := by
  decide

/-- C16, amended: in a selection stage an event whose kind is none of `Up`, `Down`, `Select`,
`Cancel`, `Back` stamps `lastInteractionTime` with the clock reading and changes no other field;
no redraw, no forced tick and no send follow. -/
theorem other_event_only_stamps_idle_timer (m : TacticalMessageModule) (e : InputEvent)
    (now : Nat) (allocOk : Bool) (hs : interceptingKeyboardInput m = true)
    (hup : e.inputEvent ≠ InputEventChar_UP) (hdown : e.inputEvent ≠ InputEventChar_DOWN)
    (hsel : e.inputEvent ≠ InputEventChar_SELECT)
    (hcancel : e.inputEvent ≠ InputEventChar_CANCEL)
    (hback : e.inputEvent ≠ InputEventChar_BACK) :
    handleInputEvent m e now allocOk = some ({ m with lastInteractionTime := now }, []) := by
  rcases (interceptingKeyboardInput_iff m).mp hs with h | h | h <;>
    simp [handleInputEvent, h, hup, hdown, hsel, hcancel, hback]

/-- Witness of C16 amended: the `Left` key in the sample `ORDER` state. -/
theorem other_event_only_stamps_idle_timer_witness :
    interceptingKeyboardInput sampleOrderStage = true ∧
    leftEvent.inputEvent ≠ InputEventChar_UP ∧ leftEvent.inputEvent ≠ InputEventChar_DOWN ∧
    leftEvent.inputEvent ≠ InputEventChar_SELECT ∧
    leftEvent.inputEvent ≠ InputEventChar_CANCEL ∧
    leftEvent.inputEvent ≠ InputEventChar_BACK ∧
    handleInputEvent sampleOrderStage leftEvent 1200 true
      = some ({ sampleOrderStage with lastInteractionTime := 1200 }, []) :=
  ⟨by decide, by decide, by decide, by decide, by decide, by decide,
    other_event_only_stamps_idle_timer sampleOrderStage leftEvent 1200 true (by decide)
      (by decide) (by decide) (by decide) (by decide) (by decide)⟩

/-! ## Stage `SENDING` is transient -/

/-- The send operation always ends in stage `ORDER` (failure) or `INACTIVE` (success). -/
theorem sendConstructedMessage_stage (m : TacticalMessageModule) (now : Nat) (allocOk : Bool) :
    (sendConstructedMessage m now allocOk).1.currentStage = TACTICAL_MESSAGE_STAGE_ORDER ∨
    (sendConstructedMessage m now allocOk).1.currentStage
      = TACTICAL_MESSAGE_STAGE_INACTIVE := by
  unfold sendConstructedMessage
  split_ifs
  · exact Or.inl rfl
  · exact Or.inl rfl
  · exact Or.inr rfl

theorem runOnce_not_sending (m : TacticalMessageModule) (now : Nat)
    (h : m.currentStage ≠ TACTICAL_MESSAGE_STAGE_SENDING) :
    (runOnce m now).1.currentStage ≠ TACTICAL_MESSAGE_STAGE_SENDING := by
  rcases runOnce_state m now with hr | hr
  · rw [hr]; exact h
  · rw [hr]; decide

theorem handleSelect_not_sending (m : TacticalMessageModule) (now : Nat) (allocOk : Bool)
    (r : TacticalMessageModule × List Effect)
    (h : m.currentStage ≠ TACTICAL_MESSAGE_STAGE_SENDING)
    (hr : handleSelect m now allocOk = some r) :
    r.1.currentStage ≠ TACTICAL_MESSAGE_STAGE_SENDING := by
  unfold handleSelect at hr
  split_ifs at hr with hc hd ho
  · cases hsrc : arrayAt contacts m.currentListItemIndex with
    | none => simp [hsrc] at hr
    | some src =>
      simp only [hsrc, Option.some.injEq] at hr
      subst hr
      show (nextStage _ now).currentStage ≠ _
      rw [nextStage_contact _ now (by exact hc)]
      show TACTICAL_MESSAGE_STAGE_DISTANCE ≠ _
      decide
  · cases hsrc : arrayAt distances m.currentListItemIndex with
    | none => simp [hsrc] at hr
    | some src =>
      simp only [hsrc, Option.some.injEq] at hr
      subst hr
      show (nextStage _ now).currentStage ≠ _
      rw [nextStage_distance _ now (by exact hd)]
      show TACTICAL_MESSAGE_STAGE_ORDER ≠ _
      decide
  · cases hcommit : commitOrder m with
    | none => simp [hcommit] at hr
    | some m1 =>
      simp only [hcommit, Option.some.injEq] at hr
      subst hr
      rcases sendConstructedMessage_stage m1 now allocOk with hs | hs <;> rw [hs] <;> decide
  · simp only [Option.some.injEq] at hr
    subst hr
    exact h

theorem handleCancel_not_sending (m : TacticalMessageModule) (now : Nat)
    (h : m.currentStage ≠ TACTICAL_MESSAGE_STAGE_SENDING) :
    (handleCancel m now).currentStage ≠ TACTICAL_MESSAGE_STAGE_SENDING := by
  unfold handleCancel
  split_ifs with hc
  · show TACTICAL_MESSAGE_STAGE_INACTIVE ≠ _
    decide
  · by_cases ho : m.currentStage = TACTICAL_MESSAGE_STAGE_ORDER
    · rw [previousStage_order m now ho]
      show TACTICAL_MESSAGE_STAGE_DISTANCE ≠ _
      decide
    · by_cases hd : m.currentStage = TACTICAL_MESSAGE_STAGE_DISTANCE
      · rw [previousStage_distance m now hd]
        show TACTICAL_MESSAGE_STAGE_CONTACT ≠ _
        decide
      · rw [previousStage_other m now ho hd]
        exact h

theorem advanceItem_stage (m : TacticalMessageModule) (listMax : Int) (now : Nat) :
    (advanceItem m listMax now).currentStage = m.currentStage := by
  unfold advanceItem
  split_ifs <;> rfl

theorem retreatItem_stage (m : TacticalMessageModule) (listMax : Int) (now : Nat) :
    (retreatItem m listMax now).currentStage = m.currentStage := by
  unfold retreatItem
  split_ifs <;> rfl

theorem handleInputEvent_not_sending (m : TacticalMessageModule) (e : InputEvent) (now : Nat)
    (allocOk : Bool) (r : TacticalMessageModule × List Effect)
    (h : m.currentStage ≠ TACTICAL_MESSAGE_STAGE_SENDING)
    (hr : handleInputEvent m e now allocOk = some r) :
    r.1.currentStage ≠ TACTICAL_MESSAGE_STAGE_SENDING := by
  have hstamp : ({ m with lastInteractionTime := now } : TacticalMessageModule).currentStage
      ≠ TACTICAL_MESSAGE_STAGE_SENDING := h
  unfold handleInputEvent at hr
  split_ifs at hr
  · cases hr; exact h
  · cases hr
    exact runOnce_not_sending _ now
      (show TACTICAL_MESSAGE_STAGE_CONTACT ≠ TACTICAL_MESSAGE_STAGE_SENDING by decide)
  · cases hr; exact h
  · cases hr
    exact runOnce_not_sending _ now (by rw [retreatItem_stage]; exact hstamp)
  · cases hr
    exact runOnce_not_sending _ now (by rw [advanceItem_stage]; exact hstamp)
  · cases hsel : handleSelect { m with lastInteractionTime := now } now allocOk with
    | none => simp [hsel] at hr
    | some r2 =>
      simp only [hsel, Option.some.injEq] at hr
      subst hr
      exact runOnce_not_sending _ now (handleSelect_not_sending _ now allocOk r2 hstamp hsel)
  · cases hr
    exact runOnce_not_sending _ now (handleCancel_not_sending _ now hstamp)
  · cases hr; exact hstamp

/-- C21: in every state reachable from construction by input events (the send succeeding or
failing), ticks and `showTemporaryFeedback` calls the stage is not `SENDING`: it is entered and
left inside the one input event that confirms the order, so no operation starts in it. -/
theorem sending_is_never_observed (m : TacticalMessageModule) (h : Reachable m) :
    m.currentStage ≠ TACTICAL_MESSAGE_STAGE_SENDING := by
  induction h with
  | construct c e now =>
    unfold construct
    split
    · show TACTICAL_MESSAGE_STAGE_INACTIVE ≠ TACTICAL_MESSAGE_STAGE_SENDING
      decide
    · show TACTICAL_MESSAGE_STAGE_DISABLED ≠ TACTICAL_MESSAGE_STAGE_SENDING
      decide
  | step m op r _ hr ih =>
    cases op with
    | input e now allocOk => exact handleInputEvent_not_sending m e now allocOk r ih hr
    | tick now =>
      simp only [step, Option.some.injEq] at hr
      subst hr
      exact runOnce_not_sending m now ih
    | feedback message isError now =>
      simp only [step, Option.some.injEq] at hr
      subst hr
      show TACTICAL_MESSAGE_STAGE_FEEDBACK ≠ _
      decide

/-- Witness of C21: the state after the order confirm of a new wizard is reachable. -/
theorem sending_is_never_observed_witness :
    ∃ m, Reachable m ∧ overlayOf m = (TACTICAL_MESSAGE_STAGE_INACTIVE, "Sent!", false, 2000) ∧
      m.currentStage ≠ TACTICAL_MESSAGE_STAGE_SENDING :=
  (Reachable_of_run_map sentOps overlayOf _ (by decide)).elim
    fun m hm => ⟨m, hm.1, hm.2, sending_is_never_observed m hm.1⟩

/-! ## Overlay expiry and the 32-bit clock -/

/-- Without a wrap of `now + 2000` the overlay set at `s` survives every tick at most 2000 ms
later. -/
theorem feedback_survives_without_wrap (m : TacticalMessageModule) (text : String)
    (isError : Bool) (s t : Nat) (hs : s + 2000 < U32) (ht : t < U32)
    (hd : subU32 t s ≤ 2000) :
    runOnce (showTemporaryFeedback m text isError s).1 t
      = ((showTemporaryFeedback m text isError s).1, 100, []) := by
  have hend : (showTemporaryFeedback m text isError s).1.feedbackEndTime = s + 2000 :=
    addU32_eq_add s 2000 hs
  have hle : t ≤ (showTemporaryFeedback m text isError s).1.feedbackEndTime := by
    rw [hend]
    unfold subU32 at hd
    unfold U32 at *
    rw [Nat.mod_eq_of_lt ht, Nat.mod_eq_of_lt (by omega : s < 4294967296)] at hd
    omega
  have hstage : (showTemporaryFeedback m text isError s).1.currentStage
      = TACTICAL_MESSAGE_STAGE_FEEDBACK := rfl
  simp [runOnce, hstage, Nat.not_lt.mpr hle]

/-- C22: evaluation of an overlay shown at the last clock value before the wrap,
`s = 4294967295`.  The expiry time wraps to 1999, and a tick at the same reading `t = s`, zero
milliseconds later, already finds `t > feedbackEndTime`: it clears the overlay and leaves stage
`FEEDBACK` for `INACTIVE`. -/
theorem overlay_cleared_at_once_near_wrap :
    subU32 4294967295 4294967295 = 0 ∧
    overlayOf (showTemporaryFeedback sampleOrderStage "Low battery" false 4294967295).1
      = (TACTICAL_MESSAGE_STAGE_FEEDBACK, "Low battery", false, 1999) ∧
    overlayOf
        (runOnce (showTemporaryFeedback sampleOrderStage "Low battery" false 4294967295).1
          4294967295).1
      = (TACTICAL_MESSAGE_STAGE_INACTIVE, "", false, 1999) := by
  decide

/-! ## The list window of `drawFrame` -/

theorem maxItemsOnScreen_pos (displayHeight y fontHeight : Int) :
    1 ≤ maxItemsOnScreen displayHeight y fontHeight :=
  le_max_left _ _

/-- With enough fuel the loop draws exactly the indexes from `start + i` up to, and excluding,
the smaller of `start + maxItems` and `listSize`. -/
theorem mem_drawLoop (start maxItems listSize : Int) (fuel : Nat) (i x : Int)
    (hfuel : maxItems ≤ i + fuel) :
    x ∈ drawLoop start maxItems listSize fuel i ↔
      start + i ≤ x ∧ x < start + maxItems ∧ x < listSize := by
  induction fuel generalizing i with
  | zero =>
    simp only [drawLoop, List.not_mem_nil, false_iff]
    intro h
    have hz : ((0 : Nat) : Int) = 0 := rfl
    omega
  | succ fuel ih =>
    unfold drawLoop
    by_cases hcond : i < maxItems ∧ start + i < listSize
    · rw [if_pos hcond, List.mem_cons, ih (i + 1) (by push_cast at hfuel; omega)]
      constructor
      · rintro (h | h) <;> omega
      · intro h
        by_cases hx : x = start + i
        · exact Or.inl hx
        · exact Or.inr (by omega)
    · rw [if_neg hcond]
      simp only [List.not_mem_nil, false_iff]
      intro h
      apply hcond
      omega

/-- C23: for `maxItemsOnScreen ≥ 1`, a list of `n ≥ 1` entries and a cursor `c` in `[0, n)`,
the window start satisfies `0 ≤ startIdx ≤ c < min (startIdx + maxItemsOnScreen) n`; the loop
of `drawFrame` draws index `c`, and every index it draws lies in `[0, n)`. -/
theorem window_shows_highlighted_item (c maxItems n : Int) (hm : 1 ≤ maxItems) (_hn : 1 ≤ n)
    (h0 : 0 ≤ c) (hc : c < n) :
    startIdx c maxItems = (if c < maxItems then 0 else c - maxItems + 1) ∧
    0 ≤ startIdx c maxItems ∧ startIdx c maxItems ≤ c ∧
    c < min (startIdx c maxItems + maxItems) n ∧
    c ∈ drawnIndexes c maxItems n ∧
    ∀ x ∈ drawnIndexes c maxItems n, 0 ≤ x ∧ x < n := by
  have hdef : startIdx c maxItems = (if c < maxItems then 0 else c - maxItems + 1) := by
    unfold startIdx
    by_cases h : c < maxItems
    · rw [if_neg (by omega), if_pos h]
    · rw [if_pos (by omega), if_neg h]
  have hs0 : 0 ≤ startIdx c maxItems := by
    rw [hdef]
    split_ifs <;> omega
  have hsc : startIdx c maxItems ≤ c := by
    rw [hdef]
    split_ifs <;> omega
  have hcm : c < startIdx c maxItems + maxItems := by
    rw [hdef]
    split_ifs <;> omega
  have hmem : ∀ x, x ∈ drawnIndexes c maxItems n ↔
      startIdx c maxItems + 0 ≤ x ∧ x < startIdx c maxItems + maxItems ∧ x < n := fun x =>
    mem_drawLoop (startIdx c maxItems) maxItems n maxItems.toNat 0 x (by omega)
  refine ⟨hdef, hs0, hsc, lt_min hcm hc, (hmem c).mpr ⟨by omega, hcm, hc⟩, fun x hx => ?_⟩
  have h := (hmem x).mp hx
  exact ⟨by omega, h.2.2⟩

/-- Witness of C23: cursor 8 of 9 entries with room for 4 items shows the entries 5 to 8. -/
theorem window_shows_highlighted_item_witness :
    (1 : Int) ≤ 4 ∧ (1 : Int) ≤ 9 ∧ (0 : Int) ≤ 8 ∧ (8 : Int) < 9 ∧
    drawnIndexes 8 4 9 = [5, 6, 7, 8] ∧ (8 : Int) ∈ drawnIndexes 8 4 9 :=
  ⟨by decide, by decide, by decide, by decide, by decide,
    (window_shows_highlighted_item 8 4 9 (by decide) (by decide) (by decide)
      (by decide)).2.2.2.2.1⟩

end TacticalMessage
